import Mathlib

/-!
Verification of the ATmega16 I2C master driver (`src/i2c/i2c.c`).

We give a shallow embedding of the two-wire (I2C/TWI) master-mode driver.
The hardware is modelled as a state holding the three TWI registers the
driver touches (`TWCR`, `TWSR`, `TWDR`), together with an oracle
`resp : Nat → Nat × Nat` describing the environment: after the k-th
hardware operation that is triggered and awaited (`i2c_wait_until_finish`),
the status register `TWSR` takes the value `(resp k).1 % 256` and the data
register `TWDR` takes `(resp k).2 % 256`.  An event trace records every bus
primitive the driver issues, plus every status check it performs, in order.

Each C function is transcribed literally: `uint8_t` values are `Nat`s that
are reduced `% 256` exactly where C truncates (at the `uint8_t` parameter
of `i2c_transmit`, and at the 8-bit hardware registers); the C `for` loops
become recursion on the loop index; output pointers become explicit
returned values.  The unbounded polling loop of `i2c_wait_until_finish` is
modelled separately, fuel-indexed, over a stream of `TWCR` readings.
-/

namespace I2c

/-- Bit positions in `TWCR`/`TWSR` of the ATmega16 TWI peripheral. -/
def TWINT : Nat := 7
def TWEA : Nat := 6
def TWSTA : Nat := 5
def TWSTO : Nat := 4
def TWEN : Nat := 2

/-- Macro `SUCCESS` is 0 (i2c.h). -/
def SUCCESS : Nat := 0
/-- Macro `ERROR` is 1 (i2c.h). -/
def ERROR : Nat := 1
/-- Macro `I2C_WRITE` is 0, the direction bit of SLA+W (i2c.h). -/
def I2C_WRITE : Nat := 0
/-- Macro `I2C_READ` is 1, the direction bit of SLA+R (i2c.h). -/
def I2C_READ : Nat := 1

/-- Status codes in TWSR[7:3] for master mode (i2c.h). -/
def MT_START : Nat := 0x08
def MT_REP_START : Nat := 0x10
def MT_SLA_WRITE_ACK : Nat := 0x18
def MT_SLA_WRITE_NACK : Nat := 0x20
def MT_DATA_TRANSMITTED_ACK : Nat := 0x28
def MT_DATA_TRANSMITTED_NACK : Nat := 0x30
def MT_ARB_LOST : Nat := 0x38
def MT_SLA_READ_ACK : Nat := 0x40
def MT_SLA_READ_NACK : Nat := 0x48
def MT_DATA_RECEIVED_ACK : Nat := 0x50
def MT_DATA_RECEIVED_NACK : Nat := 0x58

/-- One observable bus action of the driver.  `check code` records a call to
`i2c_check_status` with expected status `code`. -/
inductive Event where
  | start
  | stop
  | transmit (b : Nat)
  | receiveAck
  | receiveNack
  | check (code : Nat)
deriving DecidableEq, Repr

/-- Hardware + instrumentation state.  `resp k` is the environment's
response (new `TWSR`, new `TWDR`) to the k-th triggered-and-awaited
operation; `k` counts completed awaited operations. -/
structure HwState where
  resp : Nat → Nat × Nat
  k : Nat
  twcr : Nat
  twsr : Nat
  twdr : Nat
  trace : List Event

/-- Initial state for a run against environment `resp`. -/
def initState (resp : Nat → Nat × Nat) : HwState :=
  { resp := resp, k := 0, twcr := 0, twsr := 0, twdr := 0, trace := [] }

/-- Function `i2c_wait_until_finish` at the transaction level: under the precondition
that the hardware eventually sets TWINT (claim C7's hypothesis), the await
returns with `TWSR`/`TWDR` set by the environment's next response. -/
def i2c_wait_until_finish (s : HwState) : HwState :=
  { s with
    k := s.k + 1
    twcr := s.twcr ||| (1 <<< TWINT)
    twsr := (s.resp s.k).1 % 256
    twdr := (s.resp s.k).2 % 256 }

/-- Primitive `i2c_start`: `TWCR = (1<<TWINT)|(1<<TWSTA)|(1<<TWEN);` then wait. -/
def i2c_start (s : HwState) : HwState :=
  i2c_wait_until_finish
    { s with
      twcr := (1 <<< TWINT) ||| (1 <<< TWSTA) ||| (1 <<< TWEN)
      trace := s.trace ++ [Event.start] }

/-- Primitive `i2c_stop`: `TWCR = (1<<TWINT)|(1<<TWSTO)|(1<<TWEN);` and return
WITHOUT waiting — the only primitive that does not await completion. -/
def i2c_stop (s : HwState) : HwState :=
  { s with
    twcr := (1 <<< TWINT) ||| (1 <<< TWSTO) ||| (1 <<< TWEN)
    trace := s.trace ++ [Event.stop] }

/-- Primitive `i2c_transmit(uint8_t byte)`: `TWDR = byte; TWCR = (1<<TWINT)|(1<<TWEN);`
then wait.  The `% 256` models the `uint8_t` parameter. -/
def i2c_transmit (byte : Nat) (s : HwState) : HwState :=
  i2c_wait_until_finish
    { s with
      twdr := byte % 256
      twcr := (1 <<< TWINT) ||| (1 <<< TWEN)
      trace := s.trace ++ [Event.transmit (byte % 256)] }

/-- Primitive `i2c_receive_ack`: trigger a receive with TWEA set, wait, return TWDR. -/
def i2c_receive_ack (s : HwState) : Nat × HwState :=
  let s1 := i2c_wait_until_finish
    { s with
      twcr := (1 <<< TWINT) ||| (1 <<< TWEA) ||| (1 <<< TWEN)
      trace := s.trace ++ [Event.receiveAck] }
  (s1.twdr, s1)

/-- Primitive `i2c_receive_nack`: trigger a receive without TWEA, wait, return TWDR. -/
def i2c_receive_nack (s : HwState) : Nat × HwState :=
  let s1 := i2c_wait_until_finish
    { s with
      twcr := (1 <<< TWINT) ||| (1 <<< TWEN)
      trace := s.trace ++ [Event.receiveNack] }
  (s1.twdr, s1)

/-- Validator `i2c_check_status(uint8_t status_code)`:
`if ((TWSR & 0xF8) == status_code) return SUCCESS; else return ERROR;`.
The returned state only records the check event in the trace; the hardware
registers are untouched (the C function only reads `TWSR`). -/
def i2c_check_status (status_code : Nat) (s : HwState) : Nat × HwState :=
  (if s.twsr &&& 0xF8 == status_code then SUCCESS else ERROR,
   { s with trace := s.trace ++ [Event.check status_code] })

/-- Operation `i2c_is_device_connected(uint8_t address)` (i2c.c lines 52-71). -/
def i2c_is_device_connected (address : Nat) (s0 : HwState) : Nat × HwState :=
  let s1 := i2c_start s0
  let p1 := i2c_check_status MT_START s1
  if p1.1 == ERROR then (ERROR, p1.2)
  else
    let s2 := i2c_transmit ((address <<< 1) ||| I2C_WRITE) p1.2
    let p2 := i2c_check_status MT_SLA_WRITE_ACK s2
    if p2.1 == ERROR then (ERROR, i2c_stop p2.2)
    else (SUCCESS, i2c_stop p2.2)

/-- Operation `i2c_write_no_reg(uint8_t address, uint8_t data)` (i2c.c lines 81-104). -/
def i2c_write_no_reg (address data : Nat) (s0 : HwState) : Nat × HwState :=
  let s1 := i2c_start s0
  let p1 := i2c_check_status MT_START s1
  if p1.1 == ERROR then (ERROR, p1.2)
  else
    let s2 := i2c_transmit ((address <<< 1) ||| I2C_WRITE) p1.2
    let p2 := i2c_check_status MT_SLA_WRITE_ACK s2
    if p2.1 == ERROR then (ERROR, i2c_stop p2.2)
    else
      let s3 := i2c_transmit data p2.2
      let p3 := i2c_check_status MT_DATA_TRANSMITTED_ACK s3
      if p3.1 == ERROR then (ERROR, i2c_stop p3.2)
      else (SUCCESS, i2c_stop p3.2)

/-- Operation `i2c_write_with_reg(uint8_t address, uint8_t reg, uint8_t data)`
(i2c.c lines 115-145). -/
def i2c_write_with_reg (address reg data : Nat) (s0 : HwState) : Nat × HwState :=
  let s1 := i2c_start s0
  let p1 := i2c_check_status MT_START s1
  if p1.1 == ERROR then (ERROR, p1.2)
  else
    let s2 := i2c_transmit ((address <<< 1) ||| I2C_WRITE) p1.2
    let p2 := i2c_check_status MT_SLA_WRITE_ACK s2
    if p2.1 == ERROR then (ERROR, i2c_stop p2.2)
    else
      let s3 := i2c_transmit reg p2.2
      let p3 := i2c_check_status MT_DATA_TRANSMITTED_ACK s3
      if p3.1 == ERROR then (ERROR, i2c_stop p3.2)
      else
        let s4 := i2c_transmit data p3.2
        let p4 := i2c_check_status MT_DATA_TRANSMITTED_ACK s4
        if p4.1 == ERROR then (ERROR, i2c_stop p4.2)
        else (SUCCESS, i2c_stop p4.2)

/-- The `for (int i = 0; i < len; i++)` body shared by
`i2c_write_multi_no_reg` and `i2c_write_multi_with_reg`
(i2c.c lines 170-178 and 216-224): transmit `data[i]`, check, abort with
stop on failure.  Returns `SUCCESS` with the state unchanged beyond the
loop's own effects when `i` reaches `len`.  An out-of-range `data[i]`
(undefined behaviour in C) is modelled as reading 0. -/
def i2c_write_multi_loop (data : List Nat) (len i : Nat) (s : HwState) :
    Nat × HwState :=
  if i < len then
    let s1 := i2c_transmit (data.getD i 0) s
    let p := i2c_check_status MT_DATA_TRANSMITTED_ACK s1
    if p.1 == ERROR then (ERROR, i2c_stop p.2)
    else i2c_write_multi_loop data len (i + 1) p.2
  else (SUCCESS, s)
termination_by len - i
decreasing_by omega

/-- Operation `i2c_write_multi_no_reg(uint8_t address, uint8_t* data, uint8_t len)`
(i2c.c lines 157-183). -/
def i2c_write_multi_no_reg (address : Nat) (data : List Nat) (len : Nat)
    (s0 : HwState) : Nat × HwState :=
  let s1 := i2c_start s0
  let p1 := i2c_check_status MT_START s1
  if p1.1 == ERROR then (ERROR, p1.2)
  else
    let s2 := i2c_transmit ((address <<< 1) ||| I2C_WRITE) p1.2
    let p2 := i2c_check_status MT_SLA_WRITE_ACK s2
    if p2.1 == ERROR then (ERROR, i2c_stop p2.2)
    else
      let q := i2c_write_multi_loop data len 0 p2.2
      if q.1 == ERROR then (ERROR, q.2)
      else (SUCCESS, i2c_stop q.2)

/-- Operation `i2c_write_multi_with_reg(uint8_t address, uint8_t reg, uint8_t* data,
uint8_t len)` (i2c.c lines 196-229). -/
def i2c_write_multi_with_reg (address reg : Nat) (data : List Nat) (len : Nat)
    (s0 : HwState) : Nat × HwState :=
  let s1 := i2c_start s0
  let p1 := i2c_check_status MT_START s1
  if p1.1 == ERROR then (ERROR, p1.2)
  else
    let s2 := i2c_transmit ((address <<< 1) ||| I2C_WRITE) p1.2
    let p2 := i2c_check_status MT_SLA_WRITE_ACK s2
    if p2.1 == ERROR then (ERROR, i2c_stop p2.2)
    else
      let s3 := i2c_transmit reg p2.2
      let p3 := i2c_check_status MT_DATA_TRANSMITTED_ACK s3
      if p3.1 == ERROR then (ERROR, i2c_stop p3.2)
      else
        let q := i2c_write_multi_loop data len 0 p3.2
        if q.1 == ERROR then (ERROR, q.2)
        else (SUCCESS, i2c_stop q.2)

/-- Operation `i2c_read_no_reg(uint8_t address, uint8_t* data)` (i2c.c lines 239-262).
The output pointer becomes an explicit value: `data` is the pointee's value
on entry and the middle component of the result is its value on return. -/
def i2c_read_no_reg (address data : Nat) (s0 : HwState) :
    Nat × Nat × HwState :=
  let s1 := i2c_start s0
  let p1 := i2c_check_status MT_START s1
  if p1.1 == ERROR then (ERROR, data, p1.2)
  else
    let s2 := i2c_transmit ((address <<< 1) ||| I2C_READ) p1.2
    let p2 := i2c_check_status MT_SLA_READ_ACK s2
    if p2.1 == ERROR then (ERROR, data, i2c_stop p2.2)
    else
      let q := i2c_receive_nack p2.2
      let p3 := i2c_check_status MT_DATA_RECEIVED_NACK q.2
      if p3.1 == ERROR then (ERROR, q.1, i2c_stop p3.2)
      else (SUCCESS, q.1, i2c_stop p3.2)

/-- Operation `i2c_read_with_reg(uint8_t address, uint8_t reg, uint8_t* data)`
(i2c.c lines 273-314), with the output pointer made explicit as in
`i2c_read_no_reg`. -/
def i2c_read_with_reg (address reg data : Nat) (s0 : HwState) :
    Nat × Nat × HwState :=
  let s1 := i2c_start s0
  let p1 := i2c_check_status MT_START s1
  if p1.1 == ERROR then (ERROR, data, p1.2)
  else
    let s2 := i2c_transmit ((address <<< 1) ||| I2C_WRITE) p1.2
    let p2 := i2c_check_status MT_SLA_WRITE_ACK s2
    if p2.1 == ERROR then (ERROR, data, i2c_stop p2.2)
    else
      let s3 := i2c_transmit reg p2.2
      let p3 := i2c_check_status MT_DATA_TRANSMITTED_ACK s3
      if p3.1 == ERROR then (ERROR, data, i2c_stop p3.2)
      else
        let s4 := i2c_start p3.2
        let p4 := i2c_check_status MT_REP_START s4
        if p4.1 == ERROR then (ERROR, data, p4.2)
        else
          let s5 := i2c_transmit ((address <<< 1) ||| I2C_READ) p4.2
          let p5 := i2c_check_status MT_SLA_READ_ACK s5
          if p5.1 == ERROR then (ERROR, data, i2c_stop p5.2)
          else
            let q := i2c_receive_nack p5.2
            let p6 := i2c_check_status MT_DATA_RECEIVED_NACK q.2
            if p6.1 == ERROR then (ERROR, q.1, i2c_stop p6.2)
            else (SUCCESS, q.1, i2c_stop p6.2)

/-- The receive `for` loop shared by `i2c_read_multi_no_reg` and
`i2c_read_multi_with_reg` (i2c.c lines 338-358 and 406-426): for each `i`,
receive with nack when `i == len - 1`, else with ack; store into `data[i]`;
check the matching status; abort with stop on failure. -/
def i2c_read_multi_loop (len i : Nat) (data : List Nat) (s : HwState) :
    Nat × List Nat × HwState :=
  if i < len then
    if i == len - 1 then
      let q := i2c_receive_nack s
      let data1 := data.set i q.1
      let p := i2c_check_status MT_DATA_RECEIVED_NACK q.2
      if p.1 == ERROR then (ERROR, data1, i2c_stop p.2)
      else i2c_read_multi_loop len (i + 1) data1 p.2
    else
      let q := i2c_receive_ack s
      let data1 := data.set i q.1
      let p := i2c_check_status MT_DATA_RECEIVED_ACK q.2
      if p.1 == ERROR then (ERROR, data1, i2c_stop p.2)
      else i2c_read_multi_loop len (i + 1) data1 p.2
  else (SUCCESS, data, s)
termination_by len - i
decreasing_by all_goals omega

/-- Operation `i2c_read_multi_no_reg(uint8_t address, uint8_t len, uint8_t* data)`
(i2c.c lines 325-363).  `data` is the caller's buffer on entry; the middle
component of the result is the buffer on return. -/
def i2c_read_multi_no_reg (address len : Nat) (data : List Nat)
    (s0 : HwState) : Nat × List Nat × HwState :=
  let s1 := i2c_start s0
  let p1 := i2c_check_status MT_START s1
  if p1.1 == ERROR then (ERROR, data, p1.2)
  else
    let s2 := i2c_transmit ((address <<< 1) ||| I2C_READ) p1.2
    let p2 := i2c_check_status MT_SLA_READ_ACK s2
    if p2.1 == ERROR then (ERROR, data, i2c_stop p2.2)
    else
      let q := i2c_read_multi_loop len 0 data p2.2
      if q.1 == ERROR then (ERROR, q.2.1, q.2.2)
      else (SUCCESS, q.2.1, i2c_stop q.2.2)

/-- Operation `i2c_read_multi_with_reg(uint8_t address, uint8_t reg, uint8_t len,
uint8_t* data)` (i2c.c lines 375-431). -/
def i2c_read_multi_with_reg (address reg len : Nat) (data : List Nat)
    (s0 : HwState) : Nat × List Nat × HwState :=
  let s1 := i2c_start s0
  let p1 := i2c_check_status MT_START s1
  if p1.1 == ERROR then (ERROR, data, p1.2)
  else
    let s2 := i2c_transmit ((address <<< 1) ||| I2C_WRITE) p1.2
    let p2 := i2c_check_status MT_SLA_WRITE_ACK s2
    if p2.1 == ERROR then (ERROR, data, i2c_stop p2.2)
    else
      let s3 := i2c_transmit reg p2.2
      let p3 := i2c_check_status MT_DATA_TRANSMITTED_ACK s3
      if p3.1 == ERROR then (ERROR, data, i2c_stop p3.2)
      else
        let s4 := i2c_start p3.2
        let p4 := i2c_check_status MT_REP_START s4
        if p4.1 == ERROR then (ERROR, data, p4.2)
        else
          let s5 := i2c_transmit ((address <<< 1) ||| I2C_READ) p4.2
          let p5 := i2c_check_status MT_SLA_READ_ACK s5
          if p5.1 == ERROR then (ERROR, data, i2c_stop p5.2)
          else
            let q := i2c_read_multi_loop len 0 data p5.2
            if q.1 == ERROR then (ERROR, q.2.1, q.2.2)
            else (SUCCESS, q.2.1, i2c_stop q.2.2)

/-- The ten public operations of i2c.h (minus `i2c_init`, which performs no
bus transaction), with their arguments. -/
inductive Op where
  | isConnected (address : Nat)
  | writeNoReg (address data : Nat)
  | writeWithReg (address reg data : Nat)
  | writeMultiNoReg (address : Nat) (data : List Nat) (len : Nat)
  | writeMultiWithReg (address reg : Nat) (data : List Nat) (len : Nat)
  | readNoReg (address data : Nat)
  | readWithReg (address reg data : Nat)
  | readMultiNoReg (address len : Nat) (data : List Nat)
  | readMultiWithReg (address reg len : Nat) (data : List Nat)

/-- Run a public operation, keeping its result code and final state
(read outputs are dropped; they are studied by their own claims). -/
def runOp : Op → HwState → Nat × HwState
  | .isConnected a, s => i2c_is_device_connected a s
  | .writeNoReg a d, s => i2c_write_no_reg a d s
  | .writeWithReg a r d, s => i2c_write_with_reg a r d s
  | .writeMultiNoReg a d n, s => i2c_write_multi_no_reg a d n s
  | .writeMultiWithReg a r d n, s => i2c_write_multi_with_reg a r d n s
  | .readNoReg a d, s =>
      let q := i2c_read_no_reg a d s
      (q.1, q.2.2)
  | .readWithReg a r d, s =>
      let q := i2c_read_with_reg a r d s
      (q.1, q.2.2)
  | .readMultiNoReg a n d, s =>
      let q := i2c_read_multi_no_reg a n d s
      (q.1, q.2.2)
  | .readMultiWithReg a r n d, s =>
      let q := i2c_read_multi_with_reg a r n d s
      (q.1, q.2.2)

/-! ## The polling loop of `i2c_wait_until_finish`, modelled step by step

`while (!(TWCR & (1 << TWINT)));` polls the TWINT flag with no upper bound.
We model the successive readings of `TWCR` during the poll as a stream
`twcr : Nat → Nat` and index the loop by fuel: `some n` means the loop
exits after observing the flag at reading `n`; `none` means the flag was
not seen within `fuel` readings. -/

/-- Whether a `TWCR` reading has the TWINT completion flag set. -/
def twintFlagSet (v : Nat) : Bool := v &&& (1 <<< TWINT) != 0

/-- Fuel-indexed unfolding of the `while (!(TWCR & (1 << TWINT)));` loop of
`i2c_wait_until_finish` (i2c.c line 446), polling from reading `n` on. -/
def i2c_wait_until_finish_poll (twcr : Nat → Nat) : Nat → Nat → Option Nat
  | 0, _ => none
  | fuel + 1, n =>
      if twcr n &&& (1 <<< TWINT) == 0 then
        i2c_wait_until_finish_poll twcr fuel (n + 1)
      else some n

/-! ## Derived views of traces, used to state the claims -/

/-- The bytes put on the bus by `i2c_transmit`, in order. -/
def transmits (tr : List Event) : List Nat :=
  tr.filterMap fun e =>
    match e with
    | .transmit b => some b
    | _ => none

/-- SLA+W: the 7-bit address left-shifted once with the write bit appended,
truncated to 8 bits as by `i2c_transmit`'s `uint8_t` parameter. -/
def slaW (a : Nat) : Nat := ((a <<< 1) ||| I2C_WRITE) % 256
/-- SLA+R: the 7-bit address left-shifted once with the read bit appended. -/
def slaR (a : Nat) : Nat := ((a <<< 1) ||| I2C_READ) % 256

/-- The events a successful receive loop of `n` bytes appends: receive with
ack plus ack-check for every byte except the last, receive with nack plus
nack-check for the last. -/
def loopTrace : Nat → List Event
  | 0 => []
  | 1 => [Event.receiveNack, Event.check MT_DATA_RECEIVED_NACK]
  | n + 2 => Event.receiveAck :: Event.check MT_DATA_RECEIVED_ACK :: loopTrace (n + 1)

/-- Claim C1's abort/stop policy, as a predicate on (result, final state)
of a public operation started with an empty trace: success ends in a stop;
an error either follows a failed initial-start or repeated-start check with
no stop issued anywhere, or ends in a stop. -/
def AbortPolicy (p : Nat × HwState) : Prop :=
  (p.1 = SUCCESS → p.2.trace.getLast? = some Event.stop) ∧
  (p.1 = ERROR →
    (p.2.trace.getLast? = some (Event.check MT_START) ∧ Event.stop ∉ p.2.trace) ∨
    (p.2.trace.getLast? = some (Event.check MT_REP_START) ∧ Event.stop ∉ p.2.trace) ∨
    p.2.trace.getLast? = some Event.stop)

/-- The bytes an operation is allowed to put on the bus: its address in
SLA+W/SLA+R form (never unshifted), its register offset, and its data
bytes (`data[i]` for `i < len`, as the write loops read them). -/
def opAllowed : Op → List Nat
  | .isConnected a => [slaW a]
  | .writeNoReg a d => [slaW a, d % 256]
  | .writeWithReg a r d => [slaW a, r % 256, d % 256]
  | .writeMultiNoReg a d n => slaW a :: (List.range n).map fun i => d.getD i 0 % 256
  | .writeMultiWithReg a r d n =>
      slaW a :: r % 256 :: (List.range n).map fun i => d.getD i 0 % 256
  | .readNoReg a _ => [slaR a]
  | .readWithReg a r _ => [slaW a, r % 256, slaR a]
  | .readMultiNoReg a _ _ => [slaR a]
  | .readMultiWithReg a r _ _ => [slaW a, r % 256, slaR a]

/-- The address byte each operation transmits first: SLA+R for the two
reads that address the slave directly in read mode, SLA+W otherwise. -/
def opFirstByte : Op → Nat
  | .isConnected a => slaW a
  | .writeNoReg a _ => slaW a
  | .writeWithReg a _ _ => slaW a
  | .writeMultiNoReg a _ _ => slaW a
  | .writeMultiWithReg a _ _ _ => slaW a
  | .readNoReg a _ => slaR a
  | .readWithReg a _ _ => slaW a
  | .readMultiNoReg a _ _ => slaR a
  | .readMultiWithReg a _ _ _ => slaW a

/-- Claim C6's transmit policy for an operation: every byte put on the bus
is one of the operation's allowed bytes (its address only ever in shifted
SLA+W / SLA+R form, its register offset, its data bytes), and the first
byte put on the bus, when any is, is the shifted address with the
direction bit of the operation's first address phase. -/
def TransmitPolicy (op : Op) (p : Nat × HwState) : Prop :=
  (∀ b, Event.transmit b ∈ p.2.trace → b ∈ opAllowed op) ∧
  (transmits p.2.trace = [] ∨
    (transmits p.2.trace).head? = some (opFirstByte op))

/-! ## Concrete environments for evaluating the theorems -/

/-- A slave that acknowledges a write transaction: start then SLA+W ack
then data ack forever. -/
def envWriteOk : Nat → Nat × Nat := fun k =>
  if k = 0 then (0x08, 0) else if k = 1 then (0x18, 0) else (0x28, 0)

/-- A slave that serves a direct read: start, SLA+R ack, then every
received byte is `0xAB` with the data-received-nack status. -/
def envReadOk : Nat → Nat × Nat := fun k =>
  if k = 0 then (0x08, 0) else if k = 1 then (0x40, 0) else (0x58, 0xAB)

/-- A slave that serves a register-addressed single read: start, SLA+W ack,
register ack, repeated start, SLA+R ack, data `0xCD` with nack status. -/
def envReadRegOk : Nat → Nat × Nat := fun k =>
  if k = 0 then (0x08, 0) else if k = 1 then (0x18, 0) else if k = 2 then (0x28, 0)
  else if k = 3 then (0x10, 0) else if k = 4 then (0x40, 0) else (0x58, 0xCD)

/-- A register-addressed read of two bytes: as `envReadRegOk` but the first
data byte is acknowledged (status 0x50). -/
def envReadRegOk2 : Nat → Nat × Nat := fun k =>
  if k = 0 then (0x08, 0) else if k = 1 then (0x18, 0) else if k = 2 then (0x28, 0)
  else if k = 3 then (0x10, 0) else if k = 4 then (0x40, 0)
  else if k = 5 then (0x50, 0x11) else (0x58, 0x22)

/-- A direct read of two bytes: start, SLA+R ack, first byte acked
(status 0x50), second byte with nack status. -/
def envReadOk2 : Nat → Nat × Nat := fun k =>
  if k = 0 then (0x08, 0) else if k = 1 then (0x40, 0)
  else if k = 2 then (0x50, 0x33) else (0x58, 0x44)

/-- A dead bus: every observed status is 0, so even the start check fails. -/
def envDead : Nat → Nat × Nat := fun _ => (0, 0)

/-- Claim C5's scenario: the device acks start, SLA+W and the first data
byte, and nacks the second data byte (status 0x30 instead of 0x28). -/
def envC5 : Nat → Nat × Nat := fun k =>
  if k = 0 then (0x08, 0) else if k = 1 then (0x18, 0)
  else if k = 2 then (0x28, 0) else (0x30, 0)

/-- Claim C9's scenario: a direct read in which the received byte `0xAB`
arrives but the final status is 0x50 instead of the expected 0x58. -/
def envC9 : Nat → Nat × Nat := fun k =>
  if k = 0 then (0x08, 0) else if k = 1 then (0x40, 0) else (0x50, 0xAB)

/-- A register-addressed read that fails at the repeated-start check:
start, SLA+W ack, register ack, then status 0 instead of 0x10. -/
def envRepStartFail : Nat → Nat × Nat := fun k =>
  if k = 0 then (0x08, 0) else if k = 1 then (0x18, 0)
  else if k = 2 then (0x28, 0) else (0, 0)

/-! ## General helper lemmas -/

theorem getLast?_app {α : Type} (l : List α) (a : α) :
    (l ++ [a]).getLast? = some a := by
  induction l with
  | nil => rfl
  | cons x xs ih => simp [List.getLast?]

theorem stop_trace_last (s : HwState) :
    (i2c_stop s).trace.getLast? = some Event.stop := by
  simp [i2c_stop, getLast?_app]

/-- All status codes of the protocol table are fixed points of the `0xF8`
mask (their three low-order bits are clear). -/
theorem mask_08 : 0x08 &&& 0xF8 = 0x08 := by decide
theorem mask_10 : 0x10 &&& 0xF8 = 0x10 := by decide
theorem mask_18 : 0x18 &&& 0xF8 = 0x18 := by decide
theorem mask_28 : 0x28 &&& 0xF8 = 0x28 := by decide
theorem mask_30 : 0x30 &&& 0xF8 = 0x30 := by decide
theorem mask_40 : 0x40 &&& 0xF8 = 0x40 := by decide
theorem mask_50 : 0x50 &&& 0xF8 = 0x50 := by decide
theorem mask_58 : 0x58 &&& 0xF8 = 0x58 := by decide

/-! ## Claim C1: abort and stop policy -/

/-- If the transmit loop of the multi-byte writes returns `ERROR`, it has
just issued a stop, which is the last event of the trace. -/
theorem wloop_error_stop (d : List Nat) (len : Nat) : ∀ n i s, len - i = n →
    (i2c_write_multi_loop d len i s).1 = ERROR →
    (i2c_write_multi_loop d len i s).2.trace.getLast? = some Event.stop := by
  intro n
  induction n with
  | zero =>
    intro i s h
    rw [i2c_write_multi_loop]
    have hlt : ¬ i < len := by omega
    simp [hlt, SUCCESS, ERROR]
  | succ m ih =>
    intro i s h
    rw [i2c_write_multi_loop]
    have hlt : i < len := by omega
    simp only [if_pos hlt]
    by_cases hc : ((i2c_check_status MT_DATA_TRANSMITTED_ACK
        (i2c_transmit (d.getD i 0) s)).1 == ERROR) = true
    · rw [if_pos hc]
      intro
      exact stop_trace_last _
    · rw [if_neg hc]
      exact ih (i + 1) _ (by omega)

/-- If the receive loop of the multi-byte reads returns `ERROR`, it has
just issued a stop, which is the last event of the trace. -/
theorem rloop_error_stop (len : Nat) : ∀ n i d s, len - i = n →
    (i2c_read_multi_loop len i d s).1 = ERROR →
    (i2c_read_multi_loop len i d s).2.2.trace.getLast? = some Event.stop := by
  intro n
  induction n with
  | zero =>
    intro i d s h
    rw [i2c_read_multi_loop]
    have hlt : ¬ i < len := by omega
    simp [hlt, SUCCESS, ERROR]
  | succ m ih =>
    intro i d s h
    rw [i2c_read_multi_loop]
    have hlt : i < len := by omega
    simp only [if_pos hlt]
    by_cases hl : (i == len - 1) = true
    · rw [if_pos hl]
      by_cases hc : ((i2c_check_status MT_DATA_RECEIVED_NACK
          (i2c_receive_nack s).2).1 == ERROR) = true
      · rw [if_pos hc]
        intro
        exact stop_trace_last _
      · rw [if_neg hc]
        exact ih (i + 1) _ _ (by omega)
    · rw [if_neg hl]
      by_cases hc : ((i2c_check_status MT_DATA_RECEIVED_ACK
          (i2c_receive_ack s).2).1 == ERROR) = true
      · rw [if_pos hc]
        intro
        exact stop_trace_last _
      · rw [if_neg hc]
        exact ih (i + 1) _ _ (by omega)

theorem abort_is_device_connected (env : Nat → Nat × Nat) (a : Nat) :
    AbortPolicy (i2c_is_device_connected a (initState env)) := by
  simp only [i2c_is_device_connected, i2c_start, i2c_transmit, i2c_check_status,
    i2c_wait_until_finish, i2c_stop, initState, AbortPolicy]
  split_ifs <;> simp [SUCCESS, ERROR, getLast?_app]

theorem abort_write_no_reg (env : Nat → Nat × Nat) (a d : Nat) :
    AbortPolicy (i2c_write_no_reg a d (initState env)) := by
  simp only [i2c_write_no_reg, i2c_start, i2c_transmit, i2c_check_status,
    i2c_wait_until_finish, i2c_stop, initState, AbortPolicy]
  split_ifs <;> simp [SUCCESS, ERROR, getLast?_app]

theorem abort_write_with_reg (env : Nat → Nat × Nat) (a r d : Nat) :
    AbortPolicy (i2c_write_with_reg a r d (initState env)) := by
  simp only [i2c_write_with_reg, i2c_start, i2c_transmit, i2c_check_status,
    i2c_wait_until_finish, i2c_stop, initState, AbortPolicy]
  split_ifs <;> simp [SUCCESS, ERROR, getLast?_app]

theorem abort_read_no_reg (env : Nat → Nat × Nat) (a d : Nat) :
    AbortPolicy ((i2c_read_no_reg a d (initState env)).1,
      (i2c_read_no_reg a d (initState env)).2.2) := by
  simp only [i2c_read_no_reg, i2c_start, i2c_transmit, i2c_receive_nack,
    i2c_check_status, i2c_wait_until_finish, i2c_stop, initState, AbortPolicy]
  split_ifs <;> simp [SUCCESS, ERROR, getLast?_app]

set_option maxHeartbeats 1600000 in
theorem abort_read_with_reg (env : Nat → Nat × Nat) (a r d : Nat) :
    AbortPolicy ((i2c_read_with_reg a r d (initState env)).1,
      (i2c_read_with_reg a r d (initState env)).2.2) := by
  simp only [i2c_read_with_reg, i2c_start, i2c_transmit, i2c_receive_nack,
    i2c_check_status, i2c_wait_until_finish, i2c_stop, initState, AbortPolicy]
  split_ifs <;> simp [SUCCESS, ERROR, getLast?_app]

theorem abort_write_multi_no_reg (env : Nat → Nat × Nat) (a : Nat)
    (d : List Nat) (len : Nat) :
    AbortPolicy (i2c_write_multi_no_reg a d len (initState env)) := by
  rw [i2c_write_multi_no_reg]
  by_cases h1 : ((i2c_check_status MT_START (i2c_start (initState env))).1 == ERROR) = true
  · rw [if_pos h1]
    refine ⟨fun h => by simp [SUCCESS, ERROR] at h, fun _ => Or.inl ?_⟩
    simp [i2c_start, i2c_check_status, i2c_wait_until_finish, initState]
  · rw [if_neg h1]
    by_cases h2 : ((i2c_check_status MT_SLA_WRITE_ACK (i2c_transmit ((a <<< 1) ||| I2C_WRITE)
        (i2c_check_status MT_START (i2c_start (initState env))).2)).1 == ERROR) = true
    · rw [if_pos h2]
      exact ⟨fun h => by simp [SUCCESS, ERROR] at h,
        fun _ => Or.inr (Or.inr (stop_trace_last _))⟩
    · rw [if_neg h2]
      by_cases h3 : ((i2c_write_multi_loop d len 0
          (i2c_check_status MT_SLA_WRITE_ACK (i2c_transmit ((a <<< 1) ||| I2C_WRITE)
            (i2c_check_status MT_START (i2c_start (initState env))).2)).2).1 == ERROR) = true
      · rw [if_pos h3]
        exact ⟨fun h => by simp [SUCCESS, ERROR] at h,
          fun _ => Or.inr (Or.inr (wloop_error_stop d len _ 0 _ rfl (by simpa using h3)))⟩
      · rw [if_neg h3]
        exact ⟨fun _ => stop_trace_last _, fun h => by simp [SUCCESS, ERROR] at h⟩

theorem abort_write_multi_with_reg (env : Nat → Nat × Nat) (a r : Nat)
    (d : List Nat) (len : Nat) :
    AbortPolicy (i2c_write_multi_with_reg a r d len (initState env)) := by
  rw [i2c_write_multi_with_reg]
  by_cases h1 : ((i2c_check_status MT_START (i2c_start (initState env))).1 == ERROR) = true
  · rw [if_pos h1]
    refine ⟨fun h => by simp [SUCCESS, ERROR] at h, fun _ => Or.inl ?_⟩
    simp [i2c_start, i2c_check_status, i2c_wait_until_finish, initState]
  · rw [if_neg h1]
    by_cases h2 : ((i2c_check_status MT_SLA_WRITE_ACK (i2c_transmit ((a <<< 1) ||| I2C_WRITE)
        (i2c_check_status MT_START (i2c_start (initState env))).2)).1 == ERROR) = true
    · rw [if_pos h2]
      exact ⟨fun h => by simp [SUCCESS, ERROR] at h,
        fun _ => Or.inr (Or.inr (stop_trace_last _))⟩
    · rw [if_neg h2]
      by_cases h3 : ((i2c_check_status MT_DATA_TRANSMITTED_ACK (i2c_transmit r
          (i2c_check_status MT_SLA_WRITE_ACK (i2c_transmit ((a <<< 1) ||| I2C_WRITE)
            (i2c_check_status MT_START (i2c_start (initState env))).2)).2)).1 == ERROR) = true
      · rw [if_pos h3]
        exact ⟨fun h => by simp [SUCCESS, ERROR] at h,
          fun _ => Or.inr (Or.inr (stop_trace_last _))⟩
      · rw [if_neg h3]
        by_cases h4 : ((i2c_write_multi_loop d len 0
            (i2c_check_status MT_DATA_TRANSMITTED_ACK (i2c_transmit r
              (i2c_check_status MT_SLA_WRITE_ACK (i2c_transmit ((a <<< 1) ||| I2C_WRITE)
                (i2c_check_status MT_START (i2c_start (initState env))).2)).2)).2).1
            == ERROR) = true
        · rw [if_pos h4]
          exact ⟨fun h => by simp [SUCCESS, ERROR] at h,
            fun _ => Or.inr (Or.inr (wloop_error_stop d len _ 0 _ rfl (by simpa using h4)))⟩
        · rw [if_neg h4]
          exact ⟨fun _ => stop_trace_last _, fun h => by simp [SUCCESS, ERROR] at h⟩

theorem abort_read_multi_no_reg (env : Nat → Nat × Nat) (a len : Nat)
    (d : List Nat) :
    AbortPolicy ((i2c_read_multi_no_reg a len d (initState env)).1,
      (i2c_read_multi_no_reg a len d (initState env)).2.2) := by
  rw [i2c_read_multi_no_reg]
  by_cases h1 : ((i2c_check_status MT_START (i2c_start (initState env))).1 == ERROR) = true
  · rw [if_pos h1]
    refine ⟨fun h => by simp [SUCCESS, ERROR] at h, fun _ => Or.inl ?_⟩
    simp [i2c_start, i2c_check_status, i2c_wait_until_finish, initState]
  · rw [if_neg h1]
    by_cases h2 : ((i2c_check_status MT_SLA_READ_ACK (i2c_transmit ((a <<< 1) ||| I2C_READ)
        (i2c_check_status MT_START (i2c_start (initState env))).2)).1 == ERROR) = true
    · rw [if_pos h2]
      exact ⟨fun h => by simp [SUCCESS, ERROR] at h,
        fun _ => Or.inr (Or.inr (stop_trace_last _))⟩
    · rw [if_neg h2]
      by_cases h3 : ((i2c_read_multi_loop len 0 d
          (i2c_check_status MT_SLA_READ_ACK (i2c_transmit ((a <<< 1) ||| I2C_READ)
            (i2c_check_status MT_START (i2c_start (initState env))).2)).2).1 == ERROR) = true
      · rw [if_pos h3]
        exact ⟨fun h => by simp [SUCCESS, ERROR] at h,
          fun _ => Or.inr (Or.inr (rloop_error_stop len _ 0 _ _ rfl (by simpa using h3)))⟩
      · rw [if_neg h3]
        exact ⟨fun _ => stop_trace_last _, fun h => by simp [SUCCESS, ERROR] at h⟩

theorem abort_read_multi_with_reg (env : Nat → Nat × Nat) (a r len : Nat)
    (d : List Nat) :
    AbortPolicy ((i2c_read_multi_with_reg a r len d (initState env)).1,
      (i2c_read_multi_with_reg a r len d (initState env)).2.2) := by
  rw [i2c_read_multi_with_reg]
  by_cases h1 : ((i2c_check_status MT_START (i2c_start (initState env))).1 == ERROR) = true
  · rw [if_pos h1]
    refine ⟨fun h => by simp [SUCCESS, ERROR] at h, fun _ => Or.inl ?_⟩
    simp [i2c_start, i2c_check_status, i2c_wait_until_finish, initState]
  · rw [if_neg h1]
    by_cases h2 : ((i2c_check_status MT_SLA_WRITE_ACK (i2c_transmit ((a <<< 1) ||| I2C_WRITE)
        (i2c_check_status MT_START (i2c_start (initState env))).2)).1 == ERROR) = true
    · rw [if_pos h2]
      exact ⟨fun h => by simp [SUCCESS, ERROR] at h,
        fun _ => Or.inr (Or.inr (stop_trace_last _))⟩
    · rw [if_neg h2]
      by_cases h3 : ((i2c_check_status MT_DATA_TRANSMITTED_ACK (i2c_transmit r
          (i2c_check_status MT_SLA_WRITE_ACK (i2c_transmit ((a <<< 1) ||| I2C_WRITE)
            (i2c_check_status MT_START (i2c_start (initState env))).2)).2)).1 == ERROR) = true
      · rw [if_pos h3]
        exact ⟨fun h => by simp [SUCCESS, ERROR] at h,
          fun _ => Or.inr (Or.inr (stop_trace_last _))⟩
      · rw [if_neg h3]
        by_cases h4 : ((i2c_check_status MT_REP_START (i2c_start
            (i2c_check_status MT_DATA_TRANSMITTED_ACK (i2c_transmit r
              (i2c_check_status MT_SLA_WRITE_ACK (i2c_transmit ((a <<< 1) ||| I2C_WRITE)
                (i2c_check_status MT_START (i2c_start (initState env))).2)).2)).2)).1
            == ERROR) = true
        · rw [if_pos h4]
          refine ⟨fun h => by simp [SUCCESS, ERROR] at h, fun _ => Or.inr (Or.inl ?_)⟩
          simp [i2c_start, i2c_transmit, i2c_check_status, i2c_wait_until_finish,
            initState, getLast?_app]
        · rw [if_neg h4]
          by_cases h5 : ((i2c_check_status MT_SLA_READ_ACK (i2c_transmit
              ((a <<< 1) ||| I2C_READ) (i2c_check_status MT_REP_START (i2c_start
              (i2c_check_status MT_DATA_TRANSMITTED_ACK (i2c_transmit r
                (i2c_check_status MT_SLA_WRITE_ACK (i2c_transmit ((a <<< 1) ||| I2C_WRITE)
                  (i2c_check_status MT_START (i2c_start (initState env))).2)).2)).2)).2)).1
              == ERROR) = true
          · rw [if_pos h5]
            exact ⟨fun h => by simp [SUCCESS, ERROR] at h,
              fun _ => Or.inr (Or.inr (stop_trace_last _))⟩
          · rw [if_neg h5]
            by_cases h6 : ((i2c_read_multi_loop len 0 d
                (i2c_check_status MT_SLA_READ_ACK (i2c_transmit
                ((a <<< 1) ||| I2C_READ) (i2c_check_status MT_REP_START (i2c_start
                (i2c_check_status MT_DATA_TRANSMITTED_ACK (i2c_transmit r
                  (i2c_check_status MT_SLA_WRITE_ACK (i2c_transmit ((a <<< 1) ||| I2C_WRITE)
                    (i2c_check_status MT_START (i2c_start (initState env))).2)).2)).2)).2)).2).1
                == ERROR) = true
            · rw [if_pos h6]
              exact ⟨fun h => by simp [SUCCESS, ERROR] at h,
                fun _ => Or.inr (Or.inr (rloop_error_stop len _ 0 _ _ rfl (by simpa using h6)))⟩
            · rw [if_neg h6]
              exact ⟨fun _ => stop_trace_last _, fun h => by simp [SUCCESS, ERROR] at h⟩

/-- C1: every public operation returns `ERROR` at its first failed status
check; in every failure branch a stop condition is the last event issued
before returning, except when the failing check is the initial-start check
or the repeated-start check, in which case no stop is issued anywhere in
the transaction; and every successful run ends with a stop condition. -/
theorem c1_abort_and_stop_policy (op : Op) (env : Nat → Nat × Nat) :
    AbortPolicy (runOp op (initState env)) := by
  cases op with
  | isConnected a => exact abort_is_device_connected env a
  | writeNoReg a d => exact abort_write_no_reg env a d
  | writeWithReg a r d => exact abort_write_with_reg env a r d
  | writeMultiNoReg a d n => exact abort_write_multi_no_reg env a d n
  | writeMultiWithReg a r d n => exact abort_write_multi_with_reg env a r d n
  | readNoReg a d => exact abort_read_no_reg env a d
  | readWithReg a r d => exact abort_read_with_reg env a r d
  | readMultiNoReg a n d => exact abort_read_multi_no_reg env a n d
  | readMultiWithReg a r n d => exact abort_read_multi_with_reg env a r n d

/-- Witness for C1 at concrete inputs: a successful single-byte write ends
in a stop, and a register-addressed read whose repeated-start check fails
returns `ERROR` having issued no stop at all. -/
theorem c1_abort_and_stop_policy_witness :
    (runOp (Op.writeNoReg 0x50 0x3D) (initState envWriteOk)).2.trace.getLast? =
      some Event.stop ∧
    ((runOp (Op.readWithReg 0x68 0x00 0) (initState envRepStartFail)).2.trace.getLast? =
        some (Event.check MT_REP_START) ∧
      Event.stop ∉ (runOp (Op.readWithReg 0x68 0x00 0) (initState envRepStartFail)).2.trace) := by
  constructor
  · exact (c1_abort_and_stop_policy (Op.writeNoReg 0x50 0x3D) envWriteOk).1 (by decide)
  · have h := (c1_abort_and_stop_policy (Op.readWithReg 0x68 0x00 0) envRepStartFail).2
      (by decide)
    rcases h with ⟨h1, _⟩ | h | h3
    · exact absurd h1 (by decide)
    · exact h
    · exact absurd h3 (by decide)

/-! ## Claim C2: the status validator -/

set_option maxRecDepth 8000 in
/-- For 8-bit register values, masking with `0xF8` retains exactly the five
high-order bits (bits 7..3) and discards the low-order prescaler field. -/
theorem mask_keeps_high_five : ∀ x, x < 256 → x &&& 0xF8 = ((x >>> 3) &&& 31) <<< 3 := by
  decide

/-- C2: `i2c_check_status(expected)` masks the status register with `0xF8`
(keeping the 5 significant status bits, discarding the low-order
prescaler bits) and returns `SUCCESS` exactly when the masked value equals
the expected code, `ERROR` otherwise; the comparison is a direct equality
against the expected literal, and the check mutates no hardware register. -/
theorem c2_check_status_masks_and_compares (s : HwState) (code : Nat) :
    ((i2c_check_status code s).1 = SUCCESS ↔ s.twsr &&& 0xF8 = code) ∧
    ((i2c_check_status code s).1 = ERROR ↔ ¬ s.twsr &&& 0xF8 = code) ∧
    (s.twsr < 256 → s.twsr &&& 0xF8 = ((s.twsr >>> 3) &&& 31) <<< 3) ∧
    (i2c_check_status code s).2.twsr = s.twsr ∧
    (i2c_check_status code s).2.twcr = s.twcr ∧
    (i2c_check_status code s).2.twdr = s.twdr ∧
    (i2c_check_status code s).2.k = s.k := by
  refine ⟨?_, ?_, mask_keeps_high_five s.twsr, rfl, rfl, rfl, rfl⟩ <;>
    simp only [i2c_check_status] <;> split_ifs with h <;>
      simp_all [SUCCESS, ERROR]

/-- Witness for C2: with status register `0x2B` (code `0x28` plus prescaler
bits `0b011`) the check against `0x28` succeeds, and the masked value is
the five high-order bits. -/
theorem c2_check_status_masks_and_compares_witness :
    (i2c_check_status 0x28 { initState envDead with twsr := 0x2B }).1 = SUCCESS ∧
    ({ initState envDead with twsr := 0x2B } : HwState).twsr &&& 0xF8 =
      ((({ initState envDead with twsr := 0x2B } : HwState).twsr >>> 3) &&& 31) <<< 3 := by
  constructor
  · exact (c2_check_status_masks_and_compares
      { initState envDead with twsr := 0x2B } 0x28).1.mpr (by decide)
  · exact (c2_check_status_masks_and_compares
      { initState envDead with twsr := 0x2B } 0x28).2.2.1 (by decide)

/-! ## Claim C7: the unbounded completion poll -/

/-- If the poll exits, it exits at a reading where the TWINT flag is set. -/
theorem poll_exits_at_flag (twcr : Nat → Nat) : ∀ fuel n r,
    i2c_wait_until_finish_poll twcr fuel n = some r →
    twintFlagSet (twcr r) = true := by
  intro fuel
  induction fuel with
  | zero => intro n r h; simp [i2c_wait_until_finish_poll] at h
  | succ m ih =>
    intro n r h
    rw [i2c_wait_until_finish_poll] at h
    by_cases hc : (twcr n &&& (1 <<< TWINT) == 0) = true
    · rw [if_pos hc] at h
      exact ih _ _ h
    · rw [if_neg hc] at h
      obtain rfl : n = r := by simpa using h
      simpa [twintFlagSet] using hc

/-- If the TWINT flag is set at reading `n + k` and the poll has more than
`k` steps of fuel left, it exits. -/
theorem poll_exits_of_flag (twcr : Nat → Nat) : ∀ fuel k n, k < fuel →
    twintFlagSet (twcr (n + k)) = true →
    (i2c_wait_until_finish_poll twcr fuel n).isSome = true := by
  intro fuel
  induction fuel with
  | zero => omega
  | succ m ih =>
    intro k n hk hflag
    rw [i2c_wait_until_finish_poll]
    by_cases hc : (twcr n &&& (1 <<< TWINT) == 0) = true
    · rw [if_pos hc]
      have hk0 : k ≠ 0 := by
        rintro rfl
        rw [Nat.add_zero] at hflag
        simp only [twintFlagSet, bne_iff_ne, ne_eq] at hflag
        simp only [beq_iff_eq] at hc
        exact hflag hc
      have := ih (k - 1) (n + 1) (by omega)
      rw [show n + 1 + (k - 1) = n + k by omega] at this
      exact this hflag
    · rw [if_neg hc]
      rfl

/-- C7: the completion wait polls TWINT with no timeout: the poll
terminates (for some fuel) if and only if the hardware eventually presents
a `TWCR` reading with TWINT set; when the flag is never set, every amount
of fuel is exhausted with no exit — the loop blocks forever.  (The
transaction-level model `i2c_wait_until_finish` encodes exactly the
precondition that each triggered operation does complete, under which
every public operation is a total function.) -/
theorem c7_wait_poll_unbounded (twcr : Nat → Nat) :
    ((∃ fuel, (i2c_wait_until_finish_poll twcr fuel 0).isSome = true) ↔
      ∃ n, twintFlagSet (twcr n) = true) ∧
    ((∀ n, twintFlagSet (twcr n) = false) →
      ∀ fuel n, i2c_wait_until_finish_poll twcr fuel n = none) := by
  constructor
  · constructor
    · rintro ⟨fuel, hsome⟩
      obtain ⟨r, hr⟩ := Option.isSome_iff_exists.mp hsome
      exact ⟨r, poll_exits_at_flag twcr fuel 0 r hr⟩
    · rintro ⟨n, hn⟩
      exact ⟨n + 1, poll_exits_of_flag twcr (n + 1) n 0 (by omega) (by rw [Nat.zero_add]; exact hn)⟩
  · intro hnever fuel
    induction fuel with
    | zero => intro n; rfl
    | succ m ih =>
      intro n
      rw [i2c_wait_until_finish_poll]
      have : (twcr n &&& (1 <<< TWINT) == 0) = true := by
        have := hnever n
        simpa [twintFlagSet] using this
      rw [if_pos this]
      exact ih (n + 1)

/-- Witness for C7: on a bus whose `TWCR` always reads 0 the poll never
exits; on one whose `TWCR` always reads `0x80` (TWINT set) it exits. -/
theorem c7_wait_poll_unbounded_witness :
    i2c_wait_until_finish_poll (fun _ => 0) 5 0 = none ∧
    ∃ fuel, (i2c_wait_until_finish_poll (fun _ => 0x80) fuel 0).isSome = true := by
  constructor
  · exact (c7_wait_poll_unbounded (fun _ => 0)).2 (fun n => by decide) 5 0
  · exact (c7_wait_poll_unbounded (fun _ => 0x80)).1.mpr ⟨0, by decide⟩

/-! ## Claim C8: `i2c_stop` writes a fixed control word and does not await -/

/-- C8: `i2c_stop` writes the fixed control word
`(1<<TWINT)|(1<<TWSTO)|(1<<TWEN)` and, unlike every other primitive, does
not await completion (it consumes no environment response: `k` is
unchanged, while `start`/`transmit`/`receive` each consume one).  A second
`stop` after a stop re-writes exactly the same control word and changes
nothing else in the hardware state: its only observable effect is the
repeated stop event itself. -/
theorem c8_stop_fixed_word_idempotent (s : HwState) (b : Nat) :
    (i2c_stop s).twcr = (1 <<< TWINT) ||| (1 <<< TWSTO) ||| (1 <<< TWEN) ∧
    (i2c_stop s).k = s.k ∧
    (i2c_stop s).twsr = s.twsr ∧
    (i2c_stop s).twdr = s.twdr ∧
    (i2c_stop (i2c_stop s)).twcr = (i2c_stop s).twcr ∧
    (i2c_stop (i2c_stop s)).twsr = (i2c_stop s).twsr ∧
    (i2c_stop (i2c_stop s)).twdr = (i2c_stop s).twdr ∧
    (i2c_stop (i2c_stop s)).k = (i2c_stop s).k ∧
    (i2c_stop (i2c_stop s)).resp = (i2c_stop s).resp ∧
    (i2c_stop (i2c_stop s)).trace = (i2c_stop s).trace ++ [Event.stop] ∧
    (i2c_start s).k = s.k + 1 ∧
    (i2c_transmit b s).k = s.k + 1 ∧
    (i2c_receive_ack s).2.k = s.k + 1 ∧
    (i2c_receive_nack s).2.k = s.k + 1 := by
  simp [i2c_stop, i2c_start, i2c_transmit, i2c_receive_ack, i2c_receive_nack,
    i2c_wait_until_finish]

/-! ## Claim C5: scenario C, second data byte nacked -/

set_option maxRecDepth 8000 in
/-- C5: `i2c_write_multi_no_reg(0x27, [0x01,0x02,0x03], 3)` against a
device that acks the address and the first data byte and nacks the second
(status 0x30 instead of 0x28) returns `ERROR` after transmitting exactly
two data bytes (bus bytes: SLA+W `0x4E`, `0x01`, `0x02`), and the stop
condition is the last event issued before returning. -/
theorem c5_write_multi_nack_second_byte :
    (i2c_write_multi_no_reg 0x27 [0x01, 0x02, 0x03] 3 (initState envC5)).1 = ERROR ∧
    (i2c_write_multi_no_reg 0x27 [0x01, 0x02, 0x03] 3 (initState envC5)).2.trace =
      [Event.start, Event.check MT_START, Event.transmit 0x4E,
       Event.check MT_SLA_WRITE_ACK, Event.transmit 0x01,
       Event.check MT_DATA_TRANSMITTED_ACK, Event.transmit 0x02,
       Event.check MT_DATA_TRANSMITTED_ACK, Event.stop] ∧
    transmits (i2c_write_multi_no_reg 0x27 [0x01, 0x02, 0x03] 3 (initState envC5)).2.trace =
      [0x4E, 0x01, 0x02] := by
  refine ⟨?_, ?_, ?_⟩ <;>
    simp [i2c_write_multi_no_reg, i2c_write_multi_loop, i2c_start, i2c_stop,
      i2c_transmit, i2c_check_status, i2c_wait_until_finish, initState, envC5,
      transmits, mask_08, mask_18, mask_28, mask_30, SUCCESS, ERROR, I2C_WRITE,
      MT_START, MT_SLA_WRITE_ACK, MT_DATA_TRANSMITTED_ACK]

/-! ## Claim C9: single-byte reads write the output before the final check -/

set_option maxHeartbeats 1600000 in
/-- C9: both single-byte reads store the received byte into the caller's
output before the final data-received-nack check, so an `ERROR` return
from that final check (equivalently: an `ERROR` return whose trace
contains the receive event) leaves the output overwritten with the value
the data register held (the environment's response to the receive), while
an `ERROR` return from any earlier phase leaves the output unchanged. -/
theorem c9_read_output_overwritten_on_final_check (env : Nat → Nat × Nat)
    (a r d0 : Nat) :
    ((i2c_read_no_reg a d0 (initState env)).1 = ERROR →
      (Event.receiveNack ∈ (i2c_read_no_reg a d0 (initState env)).2.2.trace →
        (i2c_read_no_reg a d0 (initState env)).2.1 = (env 2).2 % 256) ∧
      (Event.receiveNack ∉ (i2c_read_no_reg a d0 (initState env)).2.2.trace →
        (i2c_read_no_reg a d0 (initState env)).2.1 = d0)) ∧
    ((i2c_read_with_reg a r d0 (initState env)).1 = ERROR →
      (Event.receiveNack ∈ (i2c_read_with_reg a r d0 (initState env)).2.2.trace →
        (i2c_read_with_reg a r d0 (initState env)).2.1 = (env 5).2 % 256) ∧
      (Event.receiveNack ∉ (i2c_read_with_reg a r d0 (initState env)).2.2.trace →
        (i2c_read_with_reg a r d0 (initState env)).2.1 = d0)) := by
  constructor
  · simp only [i2c_read_no_reg, i2c_start, i2c_transmit, i2c_receive_nack,
      i2c_check_status, i2c_wait_until_finish, i2c_stop, initState]
    split_ifs <;> simp [SUCCESS, ERROR]
  · simp only [i2c_read_with_reg, i2c_start, i2c_transmit, i2c_receive_nack,
      i2c_check_status, i2c_wait_until_finish, i2c_stop, initState]
    split_ifs <;> simp [SUCCESS, ERROR]

/-- Witness for C9: in the `envC9` run the final check fails (0x50 instead
of 0x58) and the caller's byte, 0 on entry, holds the received `0xAB`; in
the `envDead` run the start check fails and the byte is untouched. -/
theorem c9_read_output_overwritten_on_final_check_witness :
    ((i2c_read_no_reg 0x27 0 (initState envC9)).2.1 = (envC9 2).2 % 256 ∧
      (envC9 2).2 % 256 = 0xAB) ∧
    ((i2c_read_no_reg 0x27 0 (initState envDead)).2.1 = 0) := by
  refine ⟨⟨?_, by decide⟩, ?_⟩
  · exact ((c9_read_output_overwritten_on_final_check envC9 0x27 0 0).1
      (by decide)).1 (by decide)
  · exact ((c9_read_output_overwritten_on_final_check envDead 0x27 0 0).1
      (by decide)).2 (by decide)

/-! ## Claim C10: multi-byte operations with length 0 -/

/-- With `len = 0` the transmit loop exits at once. -/
theorem wloop_len_zero (d : List Nat) (s : HwState) :
    i2c_write_multi_loop d 0 0 s = (SUCCESS, s) := by
  rw [i2c_write_multi_loop]
  simp

/-- With `len = 0` the receive loop exits at once. -/
theorem rloop_len_zero (d : List Nat) (s : HwState) :
    i2c_read_multi_loop 0 0 d s = (SUCCESS, d, s) := by
  rw [i2c_read_multi_loop]
  simp

set_option maxHeartbeats 1600000 in
/-- C10: with `len = 0` the data loops run zero times.  The two multi-byte
writes give identical results for any two buffers (the buffer is never
read); the two multi-byte reads return the caller's buffer unchanged (it
is never written) and issue no receive event on any path; the writes
transmit nothing beyond the preamble bytes; and when the start, address,
and (where present) register checks succeed each operation returns
`SUCCESS` with a trace that is exactly the preamble followed by a stop. -/
theorem c10_len_zero_loops_skipped (env : Nat → Nat × Nat) (a r : Nat)
    (d dQ : List Nat) :
    i2c_write_multi_no_reg a d 0 (initState env) =
      i2c_write_multi_no_reg a dQ 0 (initState env) ∧
    i2c_write_multi_with_reg a r d 0 (initState env) =
      i2c_write_multi_with_reg a r dQ 0 (initState env) ∧
    (i2c_read_multi_no_reg a 0 d (initState env)).2.1 = d ∧
    (i2c_read_multi_with_reg a r 0 d (initState env)).2.1 = d ∧
    Event.receiveAck ∉ (i2c_read_multi_no_reg a 0 d (initState env)).2.2.trace ∧
    Event.receiveNack ∉ (i2c_read_multi_no_reg a 0 d (initState env)).2.2.trace ∧
    Event.receiveAck ∉ (i2c_read_multi_with_reg a r 0 d (initState env)).2.2.trace ∧
    Event.receiveNack ∉ (i2c_read_multi_with_reg a r 0 d (initState env)).2.2.trace ∧
    (∀ b, Event.transmit b ∈ (i2c_write_multi_no_reg a d 0 (initState env)).2.trace →
      b = slaW a) ∧
    (∀ b, Event.transmit b ∈ (i2c_write_multi_with_reg a r d 0 (initState env)).2.trace →
      b = slaW a ∨ b = r % 256) ∧
    ((env 0).1 % 256 &&& 0xF8 = MT_START → (env 1).1 % 256 &&& 0xF8 = MT_SLA_WRITE_ACK →
      (i2c_write_multi_no_reg a d 0 (initState env)).1 = SUCCESS ∧
      (i2c_write_multi_no_reg a d 0 (initState env)).2.trace =
        [Event.start, Event.check MT_START, Event.transmit (slaW a),
         Event.check MT_SLA_WRITE_ACK, Event.stop]) ∧
    ((env 0).1 % 256 &&& 0xF8 = MT_START → (env 1).1 % 256 &&& 0xF8 = MT_SLA_WRITE_ACK →
      (env 2).1 % 256 &&& 0xF8 = MT_DATA_TRANSMITTED_ACK →
      (i2c_write_multi_with_reg a r d 0 (initState env)).1 = SUCCESS ∧
      (i2c_write_multi_with_reg a r d 0 (initState env)).2.trace =
        [Event.start, Event.check MT_START, Event.transmit (slaW a),
         Event.check MT_SLA_WRITE_ACK, Event.transmit (r % 256),
         Event.check MT_DATA_TRANSMITTED_ACK, Event.stop]) ∧
    ((env 0).1 % 256 &&& 0xF8 = MT_START → (env 1).1 % 256 &&& 0xF8 = MT_SLA_READ_ACK →
      (i2c_read_multi_no_reg a 0 d (initState env)).1 = SUCCESS ∧
      (i2c_read_multi_no_reg a 0 d (initState env)).2.2.trace =
        [Event.start, Event.check MT_START, Event.transmit (slaR a),
         Event.check MT_SLA_READ_ACK, Event.stop]) ∧
    ((env 0).1 % 256 &&& 0xF8 = MT_START → (env 1).1 % 256 &&& 0xF8 = MT_SLA_WRITE_ACK →
      (env 2).1 % 256 &&& 0xF8 = MT_DATA_TRANSMITTED_ACK →
      (env 3).1 % 256 &&& 0xF8 = MT_REP_START →
      (env 4).1 % 256 &&& 0xF8 = MT_SLA_READ_ACK →
      (i2c_read_multi_with_reg a r 0 d (initState env)).1 = SUCCESS ∧
      (i2c_read_multi_with_reg a r 0 d (initState env)).2.2.trace =
        [Event.start, Event.check MT_START, Event.transmit (slaW a),
         Event.check MT_SLA_WRITE_ACK, Event.transmit (r % 256),
         Event.check MT_DATA_TRANSMITTED_ACK, Event.start, Event.check MT_REP_START,
         Event.transmit (slaR a), Event.check MT_SLA_READ_ACK, Event.stop]) := by
  refine ⟨?_, ?_, ?_, ?_, ?_, ?_, ?_, ?_, ?_, ?_, ?_, ?_, ?_, ?_⟩
  · simp [i2c_write_multi_no_reg, wloop_len_zero]
  · simp [i2c_write_multi_with_reg, wloop_len_zero]
  · simp only [i2c_read_multi_no_reg, rloop_len_zero]
    split_ifs <;> simp
  · simp only [i2c_read_multi_with_reg, rloop_len_zero]
    split_ifs <;> simp
  · simp only [i2c_read_multi_no_reg, rloop_len_zero, i2c_start, i2c_transmit,
      i2c_check_status, i2c_wait_until_finish, i2c_stop, initState]
    split_ifs <;> simp
  · simp only [i2c_read_multi_no_reg, rloop_len_zero, i2c_start, i2c_transmit,
      i2c_check_status, i2c_wait_until_finish, i2c_stop, initState]
    split_ifs <;> simp
  · simp only [i2c_read_multi_with_reg, rloop_len_zero, i2c_start, i2c_transmit,
      i2c_check_status, i2c_wait_until_finish, i2c_stop, initState]
    split_ifs <;> simp
  · simp only [i2c_read_multi_with_reg, rloop_len_zero, i2c_start, i2c_transmit,
      i2c_check_status, i2c_wait_until_finish, i2c_stop, initState]
    split_ifs <;> simp
  · simp only [i2c_write_multi_no_reg, wloop_len_zero, i2c_start, i2c_transmit,
      i2c_check_status, i2c_wait_until_finish, i2c_stop, initState, slaW]
    split_ifs <;> simp
  · simp only [i2c_write_multi_with_reg, wloop_len_zero, i2c_start, i2c_transmit,
      i2c_check_status, i2c_wait_until_finish, i2c_stop, initState, slaW]
    split_ifs <;> intro b <;> simp <;> tauto
  · intro h0 h1
    simp [i2c_write_multi_no_reg, wloop_len_zero, i2c_start, i2c_transmit,
      i2c_check_status, i2c_wait_until_finish, i2c_stop, initState, slaW,
      h0, h1, SUCCESS, ERROR]
  · intro h0 h1 h2
    simp [i2c_write_multi_with_reg, wloop_len_zero, i2c_start, i2c_transmit,
      i2c_check_status, i2c_wait_until_finish, i2c_stop, initState, slaW,
      h0, h1, h2, SUCCESS, ERROR]
  · intro h0 h1
    simp [i2c_read_multi_no_reg, rloop_len_zero, i2c_start, i2c_transmit,
      i2c_check_status, i2c_wait_until_finish, i2c_stop, initState, slaR,
      h0, h1, SUCCESS, ERROR]
  · intro h0 h1 h2 h3 h4
    simp [i2c_read_multi_with_reg, rloop_len_zero, i2c_start, i2c_transmit,
      i2c_check_status, i2c_wait_until_finish, i2c_stop, initState, slaW, slaR,
      h0, h1, h2, h3, h4, SUCCESS, ERROR]

/-- Witness for C10: a length-0 multi-byte write against the acknowledging
slave of `envWriteOk` succeeds with the preamble-plus-stop trace. -/
theorem c10_len_zero_loops_skipped_witness :
    (i2c_write_multi_no_reg 0x27 [] 0 (initState envWriteOk)).1 = SUCCESS ∧
    (i2c_write_multi_no_reg 0x27 [] 0 (initState envWriteOk)).2.trace =
      [Event.start, Event.check MT_START, Event.transmit (slaW 0x27),
       Event.check MT_SLA_WRITE_ACK, Event.stop] := by
  exact (c10_len_zero_loops_skipped envWriteOk 0x27 0 [] []).2.2.2.2.2.2.2.2.2.2.1
    (by decide) (by decide)

/-! ## Claims C3 and C4: successful receive loops and the repeated start -/

/-- A receive loop that runs to success from index `i` appends exactly
`loopTrace (len - i)` to the trace: ack-receives with ack-checks for every
byte but the last, then a nack-receive with a nack-check. -/
theorem rloop_succ_trace (len : Nat) : ∀ n i d s, len - i = n → i ≤ len →
    ¬ ((i2c_read_multi_loop len i d s).1 == ERROR) = true →
    (i2c_read_multi_loop len i d s).2.2.trace = s.trace ++ loopTrace (len - i) := by
  intro n
  induction n with
  | zero =>
    intro i d s h hle _
    rw [i2c_read_multi_loop]
    have hlt : ¬ i < len := by omega
    rw [if_neg hlt]
    have h0 : len - i = 0 := by omega
    simp [h0, loopTrace]
  | succ m ih =>
    intro i d s h hle hsucc
    rw [i2c_read_multi_loop] at hsucc ⊢
    have hlt : i < len := by omega
    rw [if_pos hlt] at hsucc ⊢
    by_cases hl : (i == len - 1) = true
    · rw [if_pos hl] at hsucc ⊢
      by_cases hc : ((i2c_check_status MT_DATA_RECEIVED_NACK
          (i2c_receive_nack s).2).1 == ERROR) = true
      · rw [if_pos hc] at hsucc
        simp [ERROR] at hsucc
      · rw [if_neg hc] at hsucc ⊢
        have hlast : len - i = 1 := by
          have hleq : i = len - 1 := by simpa using hl
          omega
        rw [ih (i + 1) _ _ (by omega) (by omega) hsucc]
        simp only [i2c_receive_nack, i2c_check_status, i2c_wait_until_finish]
        have : len - (i + 1) = 0 := by omega
        simp [this, hlast, loopTrace]
    · rw [if_neg hl] at hsucc ⊢
      by_cases hc : ((i2c_check_status MT_DATA_RECEIVED_ACK
          (i2c_receive_ack s).2).1 == ERROR) = true
      · rw [if_pos hc] at hsucc
        simp [ERROR] at hsucc
      · rw [if_neg hc] at hsucc ⊢
        have hge : 2 ≤ len - i := by
          have hlne : ¬ i = len - 1 := by simpa using hl
          omega
        rw [ih (i + 1) _ _ (by omega) (by omega) hsucc]
        simp only [i2c_receive_ack, i2c_check_status, i2c_wait_until_finish]
        obtain ⟨m', hm'⟩ : ∃ m', len - i = m' + 2 := ⟨len - i - 2, by omega⟩
        have hm'' : len - (i + 1) = m' + 1 := by omega
        simp [hm', hm'', loopTrace]

/-- A successful direct multi-byte read produces exactly the preamble
(start, start check, SLA+R, SLA+R-ack check) followed by the receive-loop
events and a final stop. -/
theorem read_multi_no_reg_succ_trace (env : Nat → Nat × Nat) (a len : Nat)
    (d : List Nat) :
    (i2c_read_multi_no_reg a len d (initState env)).1 = SUCCESS →
    (i2c_read_multi_no_reg a len d (initState env)).2.2.trace =
      [Event.start, Event.check MT_START, Event.transmit (slaR a),
        Event.check MT_SLA_READ_ACK] ++ loopTrace len ++ [Event.stop] := by
  rw [i2c_read_multi_no_reg]
  by_cases h1 : ((i2c_check_status MT_START (i2c_start (initState env))).1 == ERROR) = true
  · rw [if_pos h1]
    intro h
    simp [SUCCESS, ERROR] at h
  · rw [if_neg h1]
    by_cases h2 : ((i2c_check_status MT_SLA_READ_ACK (i2c_transmit ((a <<< 1) ||| I2C_READ)
        (i2c_check_status MT_START (i2c_start (initState env))).2)).1 == ERROR) = true
    · rw [if_pos h2]
      intro h
      simp [SUCCESS, ERROR] at h
    · rw [if_neg h2]
      by_cases h3 : ((i2c_read_multi_loop len 0 d
          (i2c_check_status MT_SLA_READ_ACK (i2c_transmit ((a <<< 1) ||| I2C_READ)
            (i2c_check_status MT_START (i2c_start (initState env))).2)).2).1 == ERROR) = true
      · rw [if_pos h3]
        intro h
        simp [SUCCESS, ERROR] at h
      · rw [if_neg h3]
        intro _
        have := rloop_succ_trace len len 0 d
          ((i2c_check_status MT_SLA_READ_ACK (i2c_transmit ((a <<< 1) ||| I2C_READ)
            (i2c_check_status MT_START (i2c_start (initState env))).2)).2)
          (by omega) (by omega) h3
        simp only [i2c_stop, this]
        simp [i2c_check_status, i2c_transmit, i2c_start, i2c_wait_until_finish,
          initState, slaR]

/-- A successful register-addressed multi-byte read produces exactly the
write preamble, the repeated start with its 0x10 check, SLA+R with its
check, the receive-loop events, and a final stop. -/
theorem read_multi_with_reg_succ_trace (env : Nat → Nat × Nat) (a r len : Nat)
    (d : List Nat) :
    (i2c_read_multi_with_reg a r len d (initState env)).1 = SUCCESS →
    (i2c_read_multi_with_reg a r len d (initState env)).2.2.trace =
      [Event.start, Event.check MT_START, Event.transmit (slaW a),
        Event.check MT_SLA_WRITE_ACK, Event.transmit (r % 256),
        Event.check MT_DATA_TRANSMITTED_ACK, Event.start, Event.check MT_REP_START,
        Event.transmit (slaR a), Event.check MT_SLA_READ_ACK] ++
        loopTrace len ++ [Event.stop] := by
  rw [i2c_read_multi_with_reg]
  by_cases h1 : ((i2c_check_status MT_START (i2c_start (initState env))).1 == ERROR) = true
  · rw [if_pos h1]
    intro h
    simp [SUCCESS, ERROR] at h
  · rw [if_neg h1]
    by_cases h2 : ((i2c_check_status MT_SLA_WRITE_ACK (i2c_transmit ((a <<< 1) ||| I2C_WRITE)
        (i2c_check_status MT_START (i2c_start (initState env))).2)).1 == ERROR) = true
    · rw [if_pos h2]
      intro h
      simp [SUCCESS, ERROR] at h
    · rw [if_neg h2]
      by_cases h3 : ((i2c_check_status MT_DATA_TRANSMITTED_ACK (i2c_transmit r
          (i2c_check_status MT_SLA_WRITE_ACK (i2c_transmit ((a <<< 1) ||| I2C_WRITE)
            (i2c_check_status MT_START (i2c_start (initState env))).2)).2)).1 == ERROR) = true
      · rw [if_pos h3]
        intro h
        simp [SUCCESS, ERROR] at h
      · rw [if_neg h3]
        by_cases h4 : ((i2c_check_status MT_REP_START (i2c_start
            (i2c_check_status MT_DATA_TRANSMITTED_ACK (i2c_transmit r
              (i2c_check_status MT_SLA_WRITE_ACK (i2c_transmit ((a <<< 1) ||| I2C_WRITE)
                (i2c_check_status MT_START (i2c_start (initState env))).2)).2)).2)).1
            == ERROR) = true
        · rw [if_pos h4]
          intro h
          simp [SUCCESS, ERROR] at h
        · rw [if_neg h4]
          by_cases h5 : ((i2c_check_status MT_SLA_READ_ACK (i2c_transmit
              ((a <<< 1) ||| I2C_READ) (i2c_check_status MT_REP_START (i2c_start
              (i2c_check_status MT_DATA_TRANSMITTED_ACK (i2c_transmit r
                (i2c_check_status MT_SLA_WRITE_ACK (i2c_transmit ((a <<< 1) ||| I2C_WRITE)
                  (i2c_check_status MT_START (i2c_start (initState env))).2)).2)).2)).2)).1
              == ERROR) = true
          · rw [if_pos h5]
            intro h
            simp [SUCCESS, ERROR] at h
          · rw [if_neg h5]
            by_cases h6 : ((i2c_read_multi_loop len 0 d
                (i2c_check_status MT_SLA_READ_ACK (i2c_transmit
                ((a <<< 1) ||| I2C_READ) (i2c_check_status MT_REP_START (i2c_start
                (i2c_check_status MT_DATA_TRANSMITTED_ACK (i2c_transmit r
                  (i2c_check_status MT_SLA_WRITE_ACK (i2c_transmit ((a <<< 1) ||| I2C_WRITE)
                    (i2c_check_status MT_START (i2c_start (initState env))).2)).2)).2)).2)).2).1
                == ERROR) = true
            · rw [if_pos h6]
              intro h
              simp [SUCCESS, ERROR] at h
            · rw [if_neg h6]
              intro _
              have := rloop_succ_trace len len 0 d
                ((i2c_check_status MT_SLA_READ_ACK (i2c_transmit
                  ((a <<< 1) ||| I2C_READ) (i2c_check_status MT_REP_START (i2c_start
                  (i2c_check_status MT_DATA_TRANSMITTED_ACK (i2c_transmit r
                    (i2c_check_status MT_SLA_WRITE_ACK (i2c_transmit ((a <<< 1) ||| I2C_WRITE)
                      (i2c_check_status MT_START (i2c_start (initState env))).2)).2)).2)).2)).2)
                (by omega) (by omega) h6
              simp only [i2c_stop, this]
              simp [i2c_check_status, i2c_transmit, i2c_start, i2c_wait_until_finish,
                initState, slaW, slaR]

/-- For `n + 1` received bytes the loop events are `n` ack-receive /
ack-check pairs followed by one nack-receive / nack-check pair. -/
theorem loopTrace_succ_eq (n : Nat) :
    loopTrace (n + 1) =
      (List.replicate n [Event.receiveAck, Event.check MT_DATA_RECEIVED_ACK]).flatten ++
        [Event.receiveNack, Event.check MT_DATA_RECEIVED_NACK] := by
  induction n with
  | zero => simp [loopTrace]
  | succ m ih =>
    rw [show m + 1 + 1 = m + 2 from rfl]
    rw [loopTrace, List.replicate_succ, List.flatten_cons, ih]
    simp

/-- The receive loop never issues a start condition. -/
theorem start_not_mem_loopTrace (n : Nat) : Event.start ∉ loopTrace n := by
  cases n with
  | zero => simp [loopTrace]
  | succ m =>
    rw [loopTrace_succ_eq]
    simp only [List.mem_append, List.mem_flatten]
    rintro (⟨l, hl, hmem⟩ | h)
    · rw [List.eq_of_mem_replicate hl] at hmem
      simp at hmem
    · simp at h

/-- The receive loop never transmits a byte. -/
theorem transmit_not_mem_loopTrace (n : Nat) (b : Nat) :
    Event.transmit b ∉ loopTrace n := by
  cases n with
  | zero => simp [loopTrace]
  | succ m =>
    rw [loopTrace_succ_eq]
    simp only [List.mem_append, List.mem_flatten]
    rintro (⟨l, hl, hmem⟩ | h)
    · rw [List.eq_of_mem_replicate hl] at hmem
      simp at hmem
    · simp at h

set_option maxHeartbeats 1600000 in
/-- A successful register-addressed single-byte read produces exactly the
twelve-event trace: write preamble, register byte, repeated start checked
against 0x10, SLA+R, one nack-receive, and a final stop. -/
theorem read_with_reg_succ_trace (env : Nat → Nat × Nat) (a r d : Nat) :
    (i2c_read_with_reg a r d (initState env)).1 = SUCCESS →
    (i2c_read_with_reg a r d (initState env)).2.2.trace =
      [Event.start, Event.check MT_START, Event.transmit (slaW a),
       Event.check MT_SLA_WRITE_ACK, Event.transmit (r % 256),
       Event.check MT_DATA_TRANSMITTED_ACK, Event.start, Event.check MT_REP_START,
       Event.transmit (slaR a), Event.check MT_SLA_READ_ACK, Event.receiveNack,
       Event.check MT_DATA_RECEIVED_NACK, Event.stop] := by
  simp only [i2c_read_with_reg, i2c_start, i2c_transmit, i2c_receive_nack,
    i2c_check_status, i2c_wait_until_finish, i2c_stop, initState]
  split_ifs <;> simp [SUCCESS, ERROR, slaW, slaR]

/-- C3: in every successful multi-byte read of `len = n + 1 ≥ 1` bytes —
direct or register-addressed — the receive phases are: receive-with-ack,
each checked against the data-received-ack code 0x50, for the first `n`
bytes, then receive-with-nack, checked against the data-received-nack code
0x58, for the last byte only. -/
theorem c3_multi_read_ack_until_last (env : Nat → Nat × Nat) (a r len : Nat)
    (d dQ : List Nat) (hlen : 1 ≤ len) :
    ((i2c_read_multi_no_reg a len d (initState env)).1 = SUCCESS →
      (i2c_read_multi_no_reg a len d (initState env)).2.2.trace =
        [Event.start, Event.check MT_START, Event.transmit (slaR a),
          Event.check MT_SLA_READ_ACK] ++
          ((List.replicate (len - 1)
              [Event.receiveAck, Event.check MT_DATA_RECEIVED_ACK]).flatten ++
            [Event.receiveNack, Event.check MT_DATA_RECEIVED_NACK]) ++
          [Event.stop]) ∧
    ((i2c_read_multi_with_reg a r len dQ (initState env)).1 = SUCCESS →
      (i2c_read_multi_with_reg a r len dQ (initState env)).2.2.trace =
        [Event.start, Event.check MT_START, Event.transmit (slaW a),
          Event.check MT_SLA_WRITE_ACK, Event.transmit (r % 256),
          Event.check MT_DATA_TRANSMITTED_ACK, Event.start, Event.check MT_REP_START,
          Event.transmit (slaR a), Event.check MT_SLA_READ_ACK] ++
          ((List.replicate (len - 1)
              [Event.receiveAck, Event.check MT_DATA_RECEIVED_ACK]).flatten ++
            [Event.receiveNack, Event.check MT_DATA_RECEIVED_NACK]) ++
          [Event.stop]) := by
  obtain ⟨m, rfl⟩ : ∃ m, len = m + 1 := ⟨len - 1, by omega⟩
  constructor
  · intro h
    rw [read_multi_no_reg_succ_trace env a (m + 1) d h, loopTrace_succ_eq]
    simp
  · intro h
    rw [read_multi_with_reg_succ_trace env a r (m + 1) dQ h, loopTrace_succ_eq]
    simp

set_option maxRecDepth 8000 in
/-- Witness for C3: a successful two-byte direct read against `envReadOk2`
has one acked receive (checked against 0x50) then one nacked receive
(checked against 0x58). -/
theorem c3_multi_read_ack_until_last_witness :
    (i2c_read_multi_no_reg 0x27 2 [0, 0] (initState envReadOk2)).2.2.trace =
      [Event.start, Event.check MT_START, Event.transmit (slaR 0x27),
        Event.check MT_SLA_READ_ACK] ++
        ((List.replicate 1 [Event.receiveAck, Event.check MT_DATA_RECEIVED_ACK]).flatten ++
          [Event.receiveNack, Event.check MT_DATA_RECEIVED_NACK]) ++
        [Event.stop] := by
  exact (c3_multi_read_ack_until_last envReadOk2 0x27 0 2 [0, 0] [0, 0] (by omega)).1
    (by simp [i2c_read_multi_no_reg, i2c_read_multi_loop, i2c_start, i2c_stop,
      i2c_transmit, i2c_receive_ack, i2c_receive_nack, i2c_check_status,
      i2c_wait_until_finish, initState, envReadOk2, mask_08, mask_40, mask_50,
      mask_58, SUCCESS, ERROR, I2C_READ, MT_START, MT_SLA_READ_ACK,
      MT_DATA_RECEIVED_ACK, MT_DATA_RECEIVED_NACK])

/-- C4: every successful register-addressed read — single or multi-byte —
contains exactly one repeated start: its trace splits as
`A ++ [start, check 0x10] ++ B` where `A` holds exactly one start (the
initial one) and the transmitted register byte, `B` starts with the SLA+R
transmit and holds no further start, and the whole trace has exactly two
start events.  The repeated start is checked against `MT_REP_START`
(0x10), not the initial-start code 0x08. -/
theorem c4_exactly_one_repeated_start (env : Nat → Nat × Nat) (a r d len : Nat)
    (dQ : List Nat) :
    ((i2c_read_with_reg a r d (initState env)).1 = SUCCESS →
      ∃ A B, (i2c_read_with_reg a r d (initState env)).2.2.trace =
          A ++ [Event.start, Event.check MT_REP_START] ++ B ∧
        A.count Event.start = 1 ∧ Event.start ∉ B ∧
        Event.transmit (r % 256) ∈ A ∧
        B.head? = some (Event.transmit (slaR a)) ∧
        (i2c_read_with_reg a r d (initState env)).2.2.trace.count Event.start = 2) ∧
    ((i2c_read_multi_with_reg a r len dQ (initState env)).1 = SUCCESS →
      ∃ A B, (i2c_read_multi_with_reg a r len dQ (initState env)).2.2.trace =
          A ++ [Event.start, Event.check MT_REP_START] ++ B ∧
        A.count Event.start = 1 ∧ Event.start ∉ B ∧
        Event.transmit (r % 256) ∈ A ∧
        B.head? = some (Event.transmit (slaR a)) ∧
        (i2c_read_multi_with_reg a r len dQ (initState env)).2.2.trace.count
          Event.start = 2) := by
  constructor
  · intro h
    rw [read_with_reg_succ_trace env a r d h]
    refine ⟨[Event.start, Event.check MT_START, Event.transmit (slaW a),
        Event.check MT_SLA_WRITE_ACK, Event.transmit (r % 256),
        Event.check MT_DATA_TRANSMITTED_ACK],
      [Event.transmit (slaR a), Event.check MT_SLA_READ_ACK, Event.receiveNack,
        Event.check MT_DATA_RECEIVED_NACK, Event.stop], by simp, by simp, by simp,
      by simp, by simp, by simp⟩
  · intro h
    rw [read_multi_with_reg_succ_trace env a r len dQ h]
    refine ⟨[Event.start, Event.check MT_START, Event.transmit (slaW a),
        Event.check MT_SLA_WRITE_ACK, Event.transmit (r % 256),
        Event.check MT_DATA_TRANSMITTED_ACK],
      [Event.transmit (slaR a), Event.check MT_SLA_READ_ACK] ++
        loopTrace len ++ [Event.stop], by simp, by simp, ?_, by simp, by simp, ?_⟩
    · simp [start_not_mem_loopTrace len]
    · simp [List.count_append]
      rw [List.count_eq_zero.mpr (start_not_mem_loopTrace len)]

/-- Witness for C4: the register-addressed single read of scenario B
(`envReadRegOk`) succeeds, and its trace decomposes around its unique
repeated start. -/
theorem c4_exactly_one_repeated_start_witness :
    ∃ A B, (i2c_read_with_reg 0x68 0x00 0 (initState envReadRegOk)).2.2.trace =
        A ++ [Event.start, Event.check MT_REP_START] ++ B ∧
      A.count Event.start = 1 ∧ Event.start ∉ B ∧
      Event.transmit (0x00 % 256) ∈ A ∧
      B.head? = some (Event.transmit (slaR 0x68)) ∧
      (i2c_read_with_reg 0x68 0x00 0 (initState envReadRegOk)).2.2.trace.count
        Event.start = 2 :=
  (c4_exactly_one_repeated_start envReadRegOk 0x68 0x00 0 0 []).1 (by decide)

/-! ## Claim C6: the address is always transmitted shifted with a
direction bit -/

theorem transmits_append (l1 l2 : List Event) :
    transmits (l1 ++ l2) = transmits l1 ++ transmits l2 := by
  simp [transmits, List.filterMap_append]

theorem mem_transmits (tr : List Event) (b : Nat) :
    b ∈ transmits tr ↔ Event.transmit b ∈ tr := by
  simp only [transmits, List.mem_filterMap]
  constructor
  · rintro ⟨e, he, hfe⟩
    cases e <;> simp_all
  · intro h
    exact ⟨Event.transmit b, h, rfl⟩

theorem transmit_check_trace (c x : Nat) (s : HwState) :
    (i2c_check_status c (i2c_transmit x s)).2.trace =
      s.trace ++ [Event.transmit (x % 256), Event.check c] := by
  simp [i2c_check_status, i2c_transmit, i2c_wait_until_finish]

theorem recv_nack_check_trace (c : Nat) (s : HwState) :
    (i2c_check_status c (i2c_receive_nack s).2).2.trace =
      s.trace ++ [Event.receiveNack, Event.check c] := by
  simp [i2c_check_status, i2c_receive_nack, i2c_wait_until_finish]

theorem recv_ack_check_trace (c : Nat) (s : HwState) :
    (i2c_check_status c (i2c_receive_ack s).2).2.trace =
      s.trace ++ [Event.receiveAck, Event.check c] := by
  simp [i2c_check_status, i2c_receive_ack, i2c_wait_until_finish]

/-- Every byte the write loop transmits is a `data[j]` for some `j < len`
(beyond whatever the trace already contained). -/
theorem wloop_transmits (d : List Nat) (len : Nat) : ∀ n i s, len - i = n →
    ∀ b, b ∈ transmits ((i2c_write_multi_loop d len i s).2.trace) →
      b ∈ transmits s.trace ∨ ∃ j, j < len ∧ b = d.getD j 0 % 256 := by
  intro n
  induction n with
  | zero =>
    intro i s h b
    rw [i2c_write_multi_loop]
    have hlt : ¬ i < len := by omega
    rw [if_neg hlt]
    exact Or.inl
  | succ m ih =>
    intro i s h b
    rw [i2c_write_multi_loop]
    have hlt : i < len := by omega
    rw [if_pos hlt]
    by_cases hc : ((i2c_check_status MT_DATA_TRANSMITTED_ACK
        (i2c_transmit (d.getD i 0) s)).1 == ERROR) = true
    · rw [if_pos hc]
      simp only [i2c_stop, transmit_check_trace]
      rw [List.append_assoc]
      rw [transmits_append]
      intro hb
      rcases List.mem_append.mp hb with hb | hb
      · exact Or.inl hb
      · refine Or.inr ⟨i, hlt, ?_⟩
        simpa [transmits] using hb
    · rw [if_neg hc]
      intro hb
      rcases ih (i + 1) _ (by omega) b hb with hb' | hb'
      · rw [transmit_check_trace, transmits_append] at hb'
        rcases List.mem_append.mp hb' with hb'' | hb''
        · exact Or.inl hb''
        · refine Or.inr ⟨i, hlt, ?_⟩
          simpa [transmits] using hb''
      · exact Or.inr hb'

/-- The receive loop puts no bytes on the bus, on any path. -/
theorem rloop_transmits (len : Nat) : ∀ n i d s, len - i = n →
    transmits ((i2c_read_multi_loop len i d s).2.2.trace) = transmits s.trace := by
  intro n
  induction n with
  | zero =>
    intro i d s h
    rw [i2c_read_multi_loop]
    have hlt : ¬ i < len := by omega
    rw [if_neg hlt]
  | succ m ih =>
    intro i d s h
    rw [i2c_read_multi_loop]
    have hlt : i < len := by omega
    rw [if_pos hlt]
    by_cases hl : (i == len - 1) = true
    · rw [if_pos hl]
      by_cases hc : ((i2c_check_status MT_DATA_RECEIVED_NACK
          (i2c_receive_nack s).2).1 == ERROR) = true
      · rw [if_pos hc]
        simp only [i2c_stop, recv_nack_check_trace]
        rw [List.append_assoc, transmits_append]
        simp [transmits]
      · rw [if_neg hc]
        rw [ih (i + 1) _ _ (by omega), recv_nack_check_trace, transmits_append]
        simp [transmits]
    · rw [if_neg hl]
      by_cases hc : ((i2c_check_status MT_DATA_RECEIVED_ACK
          (i2c_receive_ack s).2).1 == ERROR) = true
      · rw [if_pos hc]
        simp only [i2c_stop, recv_ack_check_trace]
        rw [List.append_assoc, transmits_append]
        simp [transmits]
      · rw [if_neg hc]
        rw [ih (i + 1) _ _ (by omega), recv_ack_check_trace, transmits_append]
        simp [transmits]

/-- The write loop only ever appends to the transmitted-bytes list. -/
theorem wloop_transmits_starts (d : List Nat) (len : Nat) : ∀ n i s, len - i = n →
    ∃ t, transmits ((i2c_write_multi_loop d len i s).2.trace) =
      transmits s.trace ++ t := by
  intro n
  induction n with
  | zero =>
    intro i s h
    rw [i2c_write_multi_loop]
    have hlt : ¬ i < len := by omega
    rw [if_neg hlt]
    exact ⟨[], by simp⟩
  | succ m ih =>
    intro i s h
    rw [i2c_write_multi_loop]
    have hlt : i < len := by omega
    rw [if_pos hlt]
    by_cases hc : ((i2c_check_status MT_DATA_TRANSMITTED_ACK
        (i2c_transmit (d.getD i 0) s)).1 == ERROR) = true
    · rw [if_pos hc]
      refine ⟨[d.getD i 0 % 256], ?_⟩
      simp only [i2c_stop, transmit_check_trace]
      rw [List.append_assoc, transmits_append]
      simp [transmits]
    · rw [if_neg hc]
      obtain ⟨t, ht⟩ := ih (i + 1) _ (by omega)
      refine ⟨d.getD i 0 % 256 :: t, ?_⟩
      rw [ht, transmit_check_trace, transmits_append]
      simp [transmits]

theorem tp_is_device_connected (env : Nat → Nat × Nat) (a : Nat) :
    TransmitPolicy (.isConnected a) (i2c_is_device_connected a (initState env)) := by
  simp only [TransmitPolicy, opAllowed, opFirstByte, i2c_is_device_connected,
    i2c_start, i2c_transmit, i2c_check_status, i2c_wait_until_finish, i2c_stop,
    initState]
  split_ifs <;> refine ⟨?_, ?_⟩ <;> simp [transmits, slaW]

theorem tp_write_no_reg (env : Nat → Nat × Nat) (a d : Nat) :
    TransmitPolicy (.writeNoReg a d) (i2c_write_no_reg a d (initState env)) := by
  simp only [TransmitPolicy, opAllowed, opFirstByte, i2c_write_no_reg, i2c_start,
    i2c_transmit, i2c_check_status, i2c_wait_until_finish, i2c_stop, initState]
  split_ifs <;> refine ⟨?_, ?_⟩ <;> simp [transmits, slaW]

set_option maxHeartbeats 1600000 in
theorem tp_write_with_reg (env : Nat → Nat × Nat) (a r d : Nat) :
    TransmitPolicy (.writeWithReg a r d) (i2c_write_with_reg a r d (initState env)) := by
  simp only [TransmitPolicy, opAllowed, opFirstByte, i2c_write_with_reg, i2c_start,
    i2c_transmit, i2c_check_status, i2c_wait_until_finish, i2c_stop, initState]
  split_ifs <;> refine ⟨?_, ?_⟩ <;> simp [transmits, slaW]

theorem tp_read_no_reg (env : Nat → Nat × Nat) (a d : Nat) :
    TransmitPolicy (.readNoReg a d)
      ((i2c_read_no_reg a d (initState env)).1,
        (i2c_read_no_reg a d (initState env)).2.2) := by
  simp only [TransmitPolicy, opAllowed, opFirstByte, i2c_read_no_reg, i2c_start,
    i2c_transmit, i2c_receive_nack, i2c_check_status, i2c_wait_until_finish,
    i2c_stop, initState]
  split_ifs <;> refine ⟨?_, ?_⟩ <;> simp [transmits, slaR]

set_option maxHeartbeats 1600000 in
theorem tp_read_with_reg (env : Nat → Nat × Nat) (a r d : Nat) :
    TransmitPolicy (.readWithReg a r d)
      ((i2c_read_with_reg a r d (initState env)).1,
        (i2c_read_with_reg a r d (initState env)).2.2) := by
  simp only [TransmitPolicy, opAllowed, opFirstByte, i2c_read_with_reg, i2c_start,
    i2c_transmit, i2c_receive_nack, i2c_check_status, i2c_wait_until_finish,
    i2c_stop, initState]
  split_ifs <;> refine ⟨?_, ?_⟩ <;> simp [transmits, slaW, slaR]

theorem tp_write_multi_no_reg (env : Nat → Nat × Nat) (a : Nat) (d : List Nat)
    (len : Nat) :
    TransmitPolicy (.writeMultiNoReg a d len)
      (i2c_write_multi_no_reg a d len (initState env)) := by
  rw [i2c_write_multi_no_reg]
  by_cases h1 : ((i2c_check_status MT_START (i2c_start (initState env))).1 == ERROR) = true
  · rw [if_pos h1]
    constructor
    · intro b hb
      simp [i2c_start, i2c_check_status, i2c_wait_until_finish, initState] at hb
    · left
      simp [transmits, i2c_start, i2c_check_status, i2c_wait_until_finish, initState]
  · rw [if_neg h1]
    by_cases h2 : ((i2c_check_status MT_SLA_WRITE_ACK (i2c_transmit ((a <<< 1) ||| I2C_WRITE)
        (i2c_check_status MT_START (i2c_start (initState env))).2)).1 == ERROR) = true
    · rw [if_pos h2]
      constructor
      · intro b hb
        simp [i2c_stop, i2c_start, i2c_transmit, i2c_check_status,
          i2c_wait_until_finish, initState] at hb
        simp [opAllowed, slaW, hb]
      · right
        simp [transmits, opFirstByte, slaW, i2c_stop, i2c_start, i2c_transmit,
          i2c_check_status, i2c_wait_until_finish, initState]
    · rw [if_neg h2]
      have hpre : transmits ((i2c_check_status MT_SLA_WRITE_ACK
          (i2c_transmit ((a <<< 1) ||| I2C_WRITE)
            (i2c_check_status MT_START (i2c_start (initState env))).2)).2).trace =
          [((a <<< 1) ||| I2C_WRITE) % 256] := by
        simp [transmits, i2c_start, i2c_transmit, i2c_check_status,
          i2c_wait_until_finish, initState]
      have hmem : ∀ b, b ∈ transmits ((i2c_write_multi_loop d len 0
          (i2c_check_status MT_SLA_WRITE_ACK (i2c_transmit ((a <<< 1) ||| I2C_WRITE)
            (i2c_check_status MT_START (i2c_start (initState env))).2)).2).2.trace) →
          b ∈ opAllowed (.writeMultiNoReg a d len) := by
        intro b hb
        rcases wloop_transmits d len (len - 0) 0 _ rfl b hb with hb' | ⟨j, hj, rfl⟩
        · rw [hpre] at hb'
          simp only [List.mem_singleton] at hb'
          simp [opAllowed, slaW, hb']
        · simp only [opAllowed, List.mem_cons, List.mem_map, List.mem_range]
          exact Or.inr ⟨j, hj, rfl⟩
      have hhead : (transmits ((i2c_write_multi_loop d len 0
          (i2c_check_status MT_SLA_WRITE_ACK (i2c_transmit ((a <<< 1) ||| I2C_WRITE)
            (i2c_check_status MT_START (i2c_start (initState env))).2)).2).2.trace)).head? =
          some (opFirstByte (.writeMultiNoReg a d len)) := by
        obtain ⟨t, ht⟩ := wloop_transmits_starts d len (len - 0) 0 _ rfl
        rw [ht, hpre]
        simp [opFirstByte, slaW]
      by_cases h3 : ((i2c_write_multi_loop d len 0
          (i2c_check_status MT_SLA_WRITE_ACK (i2c_transmit ((a <<< 1) ||| I2C_WRITE)
            (i2c_check_status MT_START (i2c_start (initState env))).2)).2).1 == ERROR) = true
      · rw [if_pos h3]
        exact ⟨fun b hb => hmem b ((mem_transmits _ b).mpr hb), Or.inr hhead⟩
      · rw [if_neg h3]
        constructor
        · intro b hb
          apply hmem b
          have : transmits ((i2c_stop (i2c_write_multi_loop d len 0
              (i2c_check_status MT_SLA_WRITE_ACK (i2c_transmit ((a <<< 1) ||| I2C_WRITE)
                (i2c_check_status MT_START (i2c_start (initState env))).2)).2).2).trace) =
              transmits ((i2c_write_multi_loop d len 0
              (i2c_check_status MT_SLA_WRITE_ACK (i2c_transmit ((a <<< 1) ||| I2C_WRITE)
                (i2c_check_status MT_START (i2c_start (initState env))).2)).2).2.trace) := by
            simp [i2c_stop, transmits_append, transmits]
          rw [← this]
          exact (mem_transmits _ b).mpr hb
        · right
          have : transmits ((i2c_stop (i2c_write_multi_loop d len 0
              (i2c_check_status MT_SLA_WRITE_ACK (i2c_transmit ((a <<< 1) ||| I2C_WRITE)
                (i2c_check_status MT_START (i2c_start (initState env))).2)).2).2).trace) =
              transmits ((i2c_write_multi_loop d len 0
              (i2c_check_status MT_SLA_WRITE_ACK (i2c_transmit ((a <<< 1) ||| I2C_WRITE)
                (i2c_check_status MT_START (i2c_start (initState env))).2)).2).2.trace) := by
            simp [i2c_stop, transmits_append, transmits]
          rw [this]
          exact hhead

set_option maxHeartbeats 3200000 in
theorem tp_write_multi_with_reg (env : Nat → Nat × Nat) (a r : Nat)
    (d : List Nat) (len : Nat) :
    TransmitPolicy (.writeMultiWithReg a r d len)
      (i2c_write_multi_with_reg a r d len (initState env)) := by
  rw [i2c_write_multi_with_reg]
  by_cases h1 : ((i2c_check_status MT_START (i2c_start (initState env))).1 == ERROR) = true
  · rw [if_pos h1]
    constructor
    · intro b hb
      simp [i2c_start, i2c_check_status, i2c_wait_until_finish, initState] at hb
    · left
      simp [transmits, i2c_start, i2c_check_status, i2c_wait_until_finish, initState]
  · rw [if_neg h1]
    by_cases h2 : ((i2c_check_status MT_SLA_WRITE_ACK (i2c_transmit ((a <<< 1) ||| I2C_WRITE)
        (i2c_check_status MT_START (i2c_start (initState env))).2)).1 == ERROR) = true
    · rw [if_pos h2]
      constructor
      · intro b hb
        simp [i2c_stop, i2c_start, i2c_transmit, i2c_check_status,
          i2c_wait_until_finish, initState] at hb
        simp [opAllowed, slaW, hb]
      · right
        simp [transmits, opFirstByte, slaW, i2c_stop, i2c_start, i2c_transmit,
          i2c_check_status, i2c_wait_until_finish, initState]
    · rw [if_neg h2]
      by_cases h3 : ((i2c_check_status MT_DATA_TRANSMITTED_ACK (i2c_transmit r
          (i2c_check_status MT_SLA_WRITE_ACK (i2c_transmit ((a <<< 1) ||| I2C_WRITE)
            (i2c_check_status MT_START (i2c_start (initState env))).2)).2)).1 == ERROR) = true
      · rw [if_pos h3]
        constructor
        · intro b hb
          simp [i2c_stop, i2c_start, i2c_transmit, i2c_check_status,
            i2c_wait_until_finish, initState] at hb
          simp only [opAllowed, List.mem_cons, slaW, slaR]
          tauto
        · right
          simp [transmits, opFirstByte, slaW, i2c_stop, i2c_start, i2c_transmit,
            i2c_check_status, i2c_wait_until_finish, initState]
      · rw [if_neg h3]
        have hpre : transmits ((i2c_check_status MT_DATA_TRANSMITTED_ACK (i2c_transmit r
            (i2c_check_status MT_SLA_WRITE_ACK (i2c_transmit ((a <<< 1) ||| I2C_WRITE)
              (i2c_check_status MT_START (i2c_start (initState env))).2)).2)).2).trace =
            [((a <<< 1) ||| I2C_WRITE) % 256, r % 256] := by
          simp [transmits, i2c_start, i2c_transmit, i2c_check_status,
            i2c_wait_until_finish, initState]
        have hmem : ∀ b, b ∈ transmits ((i2c_write_multi_loop d len 0
            (i2c_check_status MT_DATA_TRANSMITTED_ACK (i2c_transmit r
              (i2c_check_status MT_SLA_WRITE_ACK (i2c_transmit ((a <<< 1) ||| I2C_WRITE)
                (i2c_check_status MT_START (i2c_start (initState env))).2)).2)).2).2.trace) →
            b ∈ opAllowed (.writeMultiWithReg a r d len) := by
          intro b hb
          rcases wloop_transmits d len (len - 0) 0 _ rfl b hb with hb' | ⟨j, hj, rfl⟩
          · rw [hpre] at hb'
            simp only [List.mem_cons, List.not_mem_nil, or_false] at hb'
            simp only [opAllowed, List.mem_cons, slaW, slaR]
            tauto
          · simp only [opAllowed, List.mem_cons, List.mem_map, List.mem_range]
            exact Or.inr (Or.inr ⟨j, hj, rfl⟩)
        have hhead : (transmits ((i2c_write_multi_loop d len 0
            (i2c_check_status MT_DATA_TRANSMITTED_ACK (i2c_transmit r
              (i2c_check_status MT_SLA_WRITE_ACK (i2c_transmit ((a <<< 1) ||| I2C_WRITE)
                (i2c_check_status MT_START (i2c_start (initState env))).2)).2)).2).2.trace)).head? =
            some (opFirstByte (.writeMultiWithReg a r d len)) := by
          obtain ⟨t, ht⟩ := wloop_transmits_starts d len (len - 0) 0 _ rfl
          rw [ht, hpre]
          simp [opFirstByte, slaW]
        by_cases h4 : ((i2c_write_multi_loop d len 0
            (i2c_check_status MT_DATA_TRANSMITTED_ACK (i2c_transmit r
              (i2c_check_status MT_SLA_WRITE_ACK (i2c_transmit ((a <<< 1) ||| I2C_WRITE)
                (i2c_check_status MT_START (i2c_start (initState env))).2)).2)).2).1
            == ERROR) = true
        · rw [if_pos h4]
          exact ⟨fun b hb => hmem b ((mem_transmits _ b).mpr hb), Or.inr hhead⟩
        · rw [if_neg h4]
          have hst : transmits ((i2c_stop (i2c_write_multi_loop d len 0
              (i2c_check_status MT_DATA_TRANSMITTED_ACK (i2c_transmit r
                (i2c_check_status MT_SLA_WRITE_ACK (i2c_transmit ((a <<< 1) ||| I2C_WRITE)
                  (i2c_check_status MT_START (i2c_start (initState env))).2)).2)).2).2).trace) =
              transmits ((i2c_write_multi_loop d len 0
              (i2c_check_status MT_DATA_TRANSMITTED_ACK (i2c_transmit r
                (i2c_check_status MT_SLA_WRITE_ACK (i2c_transmit ((a <<< 1) ||| I2C_WRITE)
                  (i2c_check_status MT_START (i2c_start (initState env))).2)).2)).2).2.trace) := by
            simp [i2c_stop, transmits_append, transmits]
          constructor
          · intro b hb
            apply hmem b
            rw [← hst]
            exact (mem_transmits _ b).mpr hb
          · right
            rw [hst]
            exact hhead

theorem tp_read_multi_no_reg (env : Nat → Nat × Nat) (a len : Nat)
    (d : List Nat) :
    TransmitPolicy (.readMultiNoReg a len d)
      ((i2c_read_multi_no_reg a len d (initState env)).1,
        (i2c_read_multi_no_reg a len d (initState env)).2.2) := by
  rw [i2c_read_multi_no_reg]
  by_cases h1 : ((i2c_check_status MT_START (i2c_start (initState env))).1 == ERROR) = true
  · rw [if_pos h1]
    constructor
    · intro b hb
      simp [i2c_start, i2c_check_status, i2c_wait_until_finish, initState] at hb
    · left
      simp [transmits, i2c_start, i2c_check_status, i2c_wait_until_finish, initState]
  · rw [if_neg h1]
    by_cases h2 : ((i2c_check_status MT_SLA_READ_ACK (i2c_transmit ((a <<< 1) ||| I2C_READ)
        (i2c_check_status MT_START (i2c_start (initState env))).2)).1 == ERROR) = true
    · rw [if_pos h2]
      constructor
      · intro b hb
        simp [i2c_stop, i2c_start, i2c_transmit, i2c_check_status,
          i2c_wait_until_finish, initState] at hb
        simp [opAllowed, slaR, hb]
      · right
        simp [transmits, opFirstByte, slaR, i2c_stop, i2c_start, i2c_transmit,
          i2c_check_status, i2c_wait_until_finish, initState]
    · rw [if_neg h2]
      have hpre : transmits ((i2c_check_status MT_SLA_READ_ACK
          (i2c_transmit ((a <<< 1) ||| I2C_READ)
            (i2c_check_status MT_START (i2c_start (initState env))).2)).2).trace =
          [((a <<< 1) ||| I2C_READ) % 256] := by
        simp [transmits, i2c_start, i2c_transmit, i2c_check_status,
          i2c_wait_until_finish, initState]
      have hloop : transmits ((i2c_read_multi_loop len 0 d
          (i2c_check_status MT_SLA_READ_ACK (i2c_transmit ((a <<< 1) ||| I2C_READ)
            (i2c_check_status MT_START (i2c_start (initState env))).2)).2).2.2.trace) =
          [((a <<< 1) ||| I2C_READ) % 256] := by
        rw [rloop_transmits len (len - 0) 0 d _ rfl, hpre]
      by_cases h3 : ((i2c_read_multi_loop len 0 d
          (i2c_check_status MT_SLA_READ_ACK (i2c_transmit ((a <<< 1) ||| I2C_READ)
            (i2c_check_status MT_START (i2c_start (initState env))).2)).2).1 == ERROR) = true
      · rw [if_pos h3]
        constructor
        · intro b hb
          have := (mem_transmits _ b).mpr hb
          rw [hloop] at this
          simp only [List.mem_singleton] at this
          simp [opAllowed, slaR, this]
        · right
          rw [hloop]
          simp [opFirstByte, slaR]
      · rw [if_neg h3]
        have hst : transmits ((i2c_stop (i2c_read_multi_loop len 0 d
            (i2c_check_status MT_SLA_READ_ACK (i2c_transmit ((a <<< 1) ||| I2C_READ)
              (i2c_check_status MT_START (i2c_start (initState env))).2)).2).2.2).trace) =
            [((a <<< 1) ||| I2C_READ) % 256] := by
          rw [show (i2c_stop (i2c_read_multi_loop len 0 d
            (i2c_check_status MT_SLA_READ_ACK (i2c_transmit ((a <<< 1) ||| I2C_READ)
              (i2c_check_status MT_START (i2c_start (initState env))).2)).2).2.2).trace =
            (i2c_read_multi_loop len 0 d
            (i2c_check_status MT_SLA_READ_ACK (i2c_transmit ((a <<< 1) ||| I2C_READ)
              (i2c_check_status MT_START (i2c_start (initState env))).2)).2).2.2.trace ++
            [Event.stop] from by simp [i2c_stop]]
          rw [transmits_append, hloop]
          simp [transmits]
        constructor
        · intro b hb
          have := (mem_transmits _ b).mpr hb
          rw [hst] at this
          simp only [List.mem_singleton] at this
          simp [opAllowed, slaR, this]
        · right
          rw [hst]
          simp [opFirstByte, slaR]

set_option maxHeartbeats 3200000 in
theorem tp_read_multi_with_reg (env : Nat → Nat × Nat) (a r len : Nat)
    (d : List Nat) :
    TransmitPolicy (.readMultiWithReg a r len d)
      ((i2c_read_multi_with_reg a r len d (initState env)).1,
        (i2c_read_multi_with_reg a r len d (initState env)).2.2) := by
  rw [i2c_read_multi_with_reg]
  by_cases h1 : ((i2c_check_status MT_START (i2c_start (initState env))).1 == ERROR) = true
  · rw [if_pos h1]
    constructor
    · intro b hb
      simp [i2c_start, i2c_check_status, i2c_wait_until_finish, initState] at hb
    · left
      simp [transmits, i2c_start, i2c_check_status, i2c_wait_until_finish, initState]
  · rw [if_neg h1]
    by_cases h2 : ((i2c_check_status MT_SLA_WRITE_ACK (i2c_transmit ((a <<< 1) ||| I2C_WRITE)
        (i2c_check_status MT_START (i2c_start (initState env))).2)).1 == ERROR) = true
    · rw [if_pos h2]
      constructor
      · intro b hb
        simp [i2c_stop, i2c_start, i2c_transmit, i2c_check_status,
          i2c_wait_until_finish, initState] at hb
        simp [opAllowed, slaW, hb]
      · right
        simp [transmits, opFirstByte, slaW, i2c_stop, i2c_start, i2c_transmit,
          i2c_check_status, i2c_wait_until_finish, initState]
    · rw [if_neg h2]
      by_cases h3 : ((i2c_check_status MT_DATA_TRANSMITTED_ACK (i2c_transmit r
          (i2c_check_status MT_SLA_WRITE_ACK (i2c_transmit ((a <<< 1) ||| I2C_WRITE)
            (i2c_check_status MT_START (i2c_start (initState env))).2)).2)).1 == ERROR) = true
      · rw [if_pos h3]
        constructor
        · intro b hb
          simp [i2c_stop, i2c_start, i2c_transmit, i2c_check_status,
            i2c_wait_until_finish, initState] at hb
          simp only [opAllowed, List.mem_cons, slaW, slaR]
          tauto
        · right
          simp [transmits, opFirstByte, slaW, i2c_stop, i2c_start, i2c_transmit,
            i2c_check_status, i2c_wait_until_finish, initState]
      · rw [if_neg h3]
        by_cases h4 : ((i2c_check_status MT_REP_START (i2c_start
            (i2c_check_status MT_DATA_TRANSMITTED_ACK (i2c_transmit r
              (i2c_check_status MT_SLA_WRITE_ACK (i2c_transmit ((a <<< 1) ||| I2C_WRITE)
                (i2c_check_status MT_START (i2c_start (initState env))).2)).2)).2)).1
            == ERROR) = true
        · rw [if_pos h4]
          constructor
          · intro b hb
            simp [i2c_start, i2c_transmit, i2c_check_status,
              i2c_wait_until_finish, initState] at hb
            simp only [opAllowed, List.mem_cons, slaW, slaR]
            tauto
          · right
            simp [transmits, opFirstByte, slaW, i2c_start, i2c_transmit,
              i2c_check_status, i2c_wait_until_finish, initState]
        · rw [if_neg h4]
          by_cases h5 : ((i2c_check_status MT_SLA_READ_ACK (i2c_transmit
              ((a <<< 1) ||| I2C_READ) (i2c_check_status MT_REP_START (i2c_start
              (i2c_check_status MT_DATA_TRANSMITTED_ACK (i2c_transmit r
                (i2c_check_status MT_SLA_WRITE_ACK (i2c_transmit ((a <<< 1) ||| I2C_WRITE)
                  (i2c_check_status MT_START (i2c_start (initState env))).2)).2)).2)).2)).1
              == ERROR) = true
          · rw [if_pos h5]
            constructor
            · intro b hb
              simp [i2c_stop, i2c_start, i2c_transmit, i2c_check_status,
                i2c_wait_until_finish, initState] at hb
              simp only [opAllowed, List.mem_cons, slaW, slaR]
              tauto
            · right
              simp [transmits, opFirstByte, slaW, i2c_stop, i2c_start, i2c_transmit,
                i2c_check_status, i2c_wait_until_finish, initState]
          · rw [if_neg h5]
            have hpre : transmits ((i2c_check_status MT_SLA_READ_ACK (i2c_transmit
                ((a <<< 1) ||| I2C_READ) (i2c_check_status MT_REP_START (i2c_start
                (i2c_check_status MT_DATA_TRANSMITTED_ACK (i2c_transmit r
                  (i2c_check_status MT_SLA_WRITE_ACK (i2c_transmit ((a <<< 1) ||| I2C_WRITE)
                    (i2c_check_status MT_START (i2c_start (initState env))).2)).2)).2)).2)).2).trace =
                [((a <<< 1) ||| I2C_WRITE) % 256, r % 256,
                  ((a <<< 1) ||| I2C_READ) % 256] := by
              simp [transmits, i2c_start, i2c_transmit, i2c_check_status,
                i2c_wait_until_finish, initState]
            have hloop : transmits ((i2c_read_multi_loop len 0 d
                (i2c_check_status MT_SLA_READ_ACK (i2c_transmit
                ((a <<< 1) ||| I2C_READ) (i2c_check_status MT_REP_START (i2c_start
                (i2c_check_status MT_DATA_TRANSMITTED_ACK (i2c_transmit r
                  (i2c_check_status MT_SLA_WRITE_ACK (i2c_transmit ((a <<< 1) ||| I2C_WRITE)
                    (i2c_check_status MT_START (i2c_start (initState env))).2)).2)).2)).2)).2).2.2.trace) =
                [((a <<< 1) ||| I2C_WRITE) % 256, r % 256,
                  ((a <<< 1) ||| I2C_READ) % 256] := by
              rw [rloop_transmits len (len - 0) 0 d _ rfl, hpre]
            have hmem : ∀ b, b ∈ ([((a <<< 1) ||| I2C_WRITE) % 256, r % 256,
                ((a <<< 1) ||| I2C_READ) % 256] : List Nat) →
                b ∈ opAllowed (.readMultiWithReg a r len d) := by
              intro b hb
              simp only [List.mem_cons, List.not_mem_nil, or_false] at hb
              simp only [opAllowed, List.mem_cons, slaW, slaR]
              tauto
            by_cases h6 : ((i2c_read_multi_loop len 0 d
                (i2c_check_status MT_SLA_READ_ACK (i2c_transmit
                ((a <<< 1) ||| I2C_READ) (i2c_check_status MT_REP_START (i2c_start
                (i2c_check_status MT_DATA_TRANSMITTED_ACK (i2c_transmit r
                  (i2c_check_status MT_SLA_WRITE_ACK (i2c_transmit ((a <<< 1) ||| I2C_WRITE)
                    (i2c_check_status MT_START (i2c_start (initState env))).2)).2)).2)).2)).2).1
                == ERROR) = true
            · rw [if_pos h6]
              constructor
              · intro b hb
                have := (mem_transmits _ b).mpr hb
                rw [hloop] at this
                exact hmem b this
              · right
                rw [hloop]
                simp [opFirstByte, slaW]
            · rw [if_neg h6]
              have hst : transmits ((i2c_stop (i2c_read_multi_loop len 0 d
                  (i2c_check_status MT_SLA_READ_ACK (i2c_transmit
                  ((a <<< 1) ||| I2C_READ) (i2c_check_status MT_REP_START (i2c_start
                  (i2c_check_status MT_DATA_TRANSMITTED_ACK (i2c_transmit r
                    (i2c_check_status MT_SLA_WRITE_ACK (i2c_transmit ((a <<< 1) ||| I2C_WRITE)
                      (i2c_check_status MT_START (i2c_start (initState env))).2)).2)).2)).2)).2).2.2).trace) =
                  [((a <<< 1) ||| I2C_WRITE) % 256, r % 256,
                    ((a <<< 1) ||| I2C_READ) % 256] := by
                simp only [i2c_stop]
                rw [transmits_append, hloop]
                simp [transmits]
              constructor
              · intro b hb
                have := (mem_transmits _ b).mpr hb
                rw [hst] at this
                exact hmem b this
              · right
                rw [hst]
                simp [opFirstByte, slaW]

/-- C6: in every public operation, under every environment, every byte the
operation puts on the bus is either the device address left-shifted by one
with the write bit (SLA+W), the address left-shifted with the read bit
(SLA+R), the register offset, or one of the caller's data bytes; and the
first byte transmitted, whenever one is, is the shifted address with the
direction bit of the operation's first address phase.  No operation ever
transmits the address unshifted as its address byte. -/
theorem c6_address_always_shifted (op : Op) (env : Nat → Nat × Nat) :
    TransmitPolicy op (runOp op (initState env)) := by
  cases op with
  | isConnected a => exact tp_is_device_connected env a
  | writeNoReg a d => exact tp_write_no_reg env a d
  | writeWithReg a r d => exact tp_write_with_reg env a r d
  | writeMultiNoReg a d n => exact tp_write_multi_no_reg env a d n
  | writeMultiWithReg a r d n => exact tp_write_multi_with_reg env a r d n
  | readNoReg a d => exact tp_read_no_reg env a d
  | readWithReg a r d => exact tp_read_with_reg env a r d
  | readMultiNoReg a n d => exact tp_read_multi_no_reg env a n d
  | readMultiWithReg a r n d => exact tp_read_multi_with_reg env a r n d

/-- Witness for C6: in the successful `write(0x50, 0x3D)` run the bus saw
the byte `0xA0 = 0x50 << 1 | 0` (SLA+W), it is among the operation's
allowed bytes, and it is the first byte transmitted. -/
theorem c6_address_always_shifted_witness :
    (0xA0 ∈ opAllowed (Op.writeNoReg 0x50 0x3D)) ∧
    (transmits (runOp (Op.writeNoReg 0x50 0x3D) (initState envWriteOk)).2.trace).head? =
      some (opFirstByte (Op.writeNoReg 0x50 0x3D)) := by
  constructor
  · exact (c6_address_always_shifted (Op.writeNoReg 0x50 0x3D) envWriteOk).1 0xA0
      (by decide)
  · rcases (c6_address_always_shifted (Op.writeNoReg 0x50 0x3D) envWriteOk).2 with h | h
    · exact absurd h (by decide)
    · exact h

end I2c
